import Mathlib

/-!
Verification of the Stop-Work Guardrail & Checklist Reconciliation Engine
(`src/app/api/export-pdf/route.ts`, the `generate-ats` route): a shallow
embedding of its data model and operations, followed by theorems settling
the frozen claims about it.

Modelling conventions:
* JSON values of uncertain shape become `Option`-typed record fields; the
  JavaScript coercions (`pickString`, `safeArrayStrings`, `|| fallback`)
  are translated as functions over those options, matching the fact that a
  wrong-typed field and an absent field behave identically under them.
* `String(v).trim()` is modelled by `jsTrim`, a character-list trim with the
  same observable behaviour as the JavaScript `trim` on the data involved.
* The two external calls to the generative service (the main draft and the
  checklist enrichment) are inputs of type `ServiceCall`: either the call
  throws (rejected promise: unreachable / timeout), or it returns text whose
  `JSON.parse` yields `none` (parse failure) or a parsed payload.
* JavaScript numbers in the environment snapshot are modelled as `Int`
  (every threshold comparison in the source is against an integer).
-/

namespace ATSRoute

/-! ## String helpers (route.ts lines 281-318) -/

/-- Character-level left trim. -/
def trimLeftList (l : List Char) : List Char := l.dropWhile Char.isWhitespace

/-- Character-level right trim. -/
def trimRightList (l : List Char) : List Char :=
  (l.reverse.dropWhile Char.isWhitespace).reverse

/-- Model of JavaScript `String.prototype.trim`. -/
def jsTrim (s : String) : String := String.mk (trimRightList (trimLeftList s.data))

/-- `pickString(v, fallback)`: keep `v` when it is a string, else the fallback. -/
def pickString (v : Option String) (fallback : String) : String := v.getD fallback

/-- `safeArrayStrings`: coerce to strings, trim, and drop empties. -/
def safeArrayStrings (l : List String) : List String :=
  (l.map jsTrim).filter (fun s => s ≠ "")

/-- `safeArrayStrings` applied to a possibly-absent / non-array value. -/
def safeArrayStringsO (v : Option (List String)) : List String :=
  safeArrayStrings (v.getD [])

/-- Loop of `mergeUnique`: walk the concatenation, keep the first occurrence
of each trimmed non-empty string.  `acc` holds the kept values in reverse. -/
def mergeUniqueAux : List String → List String → List String
  | [], acc => acc.reverse
  | s :: rest, acc =>
    let v := jsTrim s
    if v = "" then mergeUniqueAux rest acc
    else if v ∈ acc then mergeUniqueAux rest acc
    else mergeUniqueAux rest (v :: acc)

/-- `mergeUnique(listA, listB)` (route.ts lines 298-309). -/
def mergeUnique (a b : List String) : List String := mergeUniqueAux (a ++ b) []

/-- Lower-case map used by `normalizeYesNo`: ASCII letters, plus the one
accented capital occurring in the comparison lists. -/
def lowerChar (c : Char) : Char :=
  if 'A' ≤ c ∧ c ≤ 'Z' then Char.ofNat (c.toNat + 32)
  else if c = 'Í' then 'í' else c

/-- Model of `String.prototype.toLowerCase` on the characters involved. -/
def jsLower (s : String) : String := String.mk (s.data.map lowerChar)

/-- `normalizeYesNo` (route.ts lines 312-318). -/
def normalizeYesNo (v : String) : String :=
  let s := jsLower (jsTrim v)
  if s = "" then ""
  else if s ∈ ["si", "sí", "true", "1", "yes", "y"] then "Si"
  else if s ∈ ["no", "false", "0", "n"] then "No"
  else ""

/-! ### Facts about the string helpers -/

theorem dropWhile_dropWhile_self (p : α → Bool) (l : List α) :
    (l.dropWhile p).dropWhile p = l.dropWhile p := by
  induction l with
  | nil => rfl
  | cons a l ih =>
    by_cases h : p a
    · simpa [List.dropWhile_cons_of_pos h] using ih
    · simp [List.dropWhile_cons_of_neg h, h]

theorem dropWhile_eq_self_of_head (p : α → Bool) (l : List α)
    (h : ∀ c, l.head? = some c → ¬ p c) : l.dropWhile p = l := by
  cases l with
  | nil => rfl
  | cons a l => exact List.dropWhile_cons_of_neg (h a rfl)

theorem trimLeftList_idem (l : List Char) :
    trimLeftList (trimLeftList l) = trimLeftList l :=
  dropWhile_dropWhile_self _ _

theorem trimRightList_rev (l : List Char) :
    (trimRightList l).reverse = l.reverse.dropWhile Char.isWhitespace := by
  simp [trimRightList]

theorem trimRightList_idem (l : List Char) :
    trimRightList (trimRightList l) = trimRightList l := by
  have h : (trimRightList l).reverse.dropWhile Char.isWhitespace
      = (trimRightList l).reverse := by
    rw [trimRightList_rev]
    exact dropWhile_dropWhile_self _ _
  have := congrArg List.reverse h
  simpa [trimRightList] using this

theorem trimRightList_isPre (l : List Char) : trimRightList l <+: l := by
  have h : (l.reverse.dropWhile Char.isWhitespace) <:+ l.reverse :=
    List.dropWhile_suffix _
  obtain ⟨t, ht⟩ := h
  refine ⟨t.reverse, ?_⟩
  have := congrArg List.reverse ht
  simpa [trimRightList] using this

theorem trimLeft_of_trimmed (l m : List Char) (hp : l <+: m)
    (hm : trimLeftList m = m) : trimLeftList l = l := by
  cases l with
  | nil => rfl
  | cons a l =>
    obtain ⟨t, ht⟩ := hp
    apply dropWhile_eq_self_of_head
    intro c hc
    simp only [List.head?_cons, Option.some.injEq] at hc
    subst hc
    intro hws
    have : m.dropWhile Char.isWhitespace = m := hm
    rw [← ht] at this
    simp [List.dropWhile_cons_of_pos hws] at this
    have hle : ((l ++ t).dropWhile Char.isWhitespace).length ≤ (l ++ t).length :=
      List.Sublist.length_le (List.dropWhile_sublist _)
    rw [this] at hle
    simp at hle

theorem jsTrim_idem (s : String) : jsTrim (jsTrim s) = jsTrim s := by
  unfold jsTrim
  congr 1
  have hL : trimLeftList (trimRightList (trimLeftList s.data))
      = trimRightList (trimLeftList s.data) := by
    apply trimLeft_of_trimmed _ (trimLeftList s.data) (trimRightList_isPre _)
    exact trimLeftList_idem s.data
  rw [hL, trimRightList_idem]

/-- Trimmed-nonempty strings: the shape of every element the merge/dedup
helpers keep. -/
def cleanS (s : String) : Prop := jsTrim s = s ∧ s ≠ ""

theorem safeArrayStrings_clean (l : List String) :
    ∀ s ∈ safeArrayStrings l, cleanS s := by
  intro s hs
  simp only [safeArrayStrings, List.mem_filter, List.mem_map, decide_eq_true_eq] at hs
  obtain ⟨⟨x, _, hx⟩, hne⟩ := hs
  subst hx
  exact ⟨jsTrim_idem x, hne⟩

theorem safeArrayStringsO_clean (v : Option (List String)) :
    ∀ s ∈ safeArrayStringsO v, cleanS s := safeArrayStrings_clean _

theorem mergeUniqueAux_exists (l : List String) (acc : List String) :
    ∃ t, mergeUniqueAux l acc = acc.reverse ++ t := by
  induction l generalizing acc with
  | nil => exact ⟨[], by simp [mergeUniqueAux]⟩
  | cons s rest ih =>
    by_cases h1 : jsTrim s = ""
    · simpa [mergeUniqueAux, h1] using ih acc
    · by_cases h2 : jsTrim s ∈ acc
      · simpa [mergeUniqueAux, h1, h2] using ih acc
      · obtain ⟨t, ht⟩ := ih (jsTrim s :: acc)
        refine ⟨jsTrim s :: t, ?_⟩
        simp only [mergeUniqueAux, h1, h2, if_false, if_neg, ite_false]
        simp [h1, h2, ht]

theorem mergeUniqueAux_front (a : List String) (b : List String) :
    ∀ acc, a.Nodup → (∀ s ∈ a, cleanS s ∧ s ∉ acc) →
    ∃ t, mergeUniqueAux (a ++ b) acc = acc.reverse ++ a ++ t := by
  induction a with
  | nil =>
    intro acc _ _
    simpa using mergeUniqueAux_exists b acc
  | cons s rest ih =>
    intro acc hnd h
    obtain ⟨⟨hts, hne⟩, hnacc⟩ := h s (List.mem_cons_self s rest)
    have hrest : ∀ x ∈ rest, cleanS x ∧ x ∉ s :: acc := by
      intro x hx
      obtain ⟨hc, hna⟩ := h x (List.mem_cons_of_mem _ hx)
      refine ⟨hc, ?_⟩
      intro hmem
      rcases List.mem_cons.mp hmem with h' | h'
      · exact (List.Nodup.not_mem (by simpa using hnd)) (h' ▸ hx)
      · exact hna h'
    obtain ⟨t, ht⟩ := ih (s :: acc) (List.Nodup.of_cons hnd) hrest
    refine ⟨t, ?_⟩
    have hstep : mergeUniqueAux ((s :: rest) ++ b) acc
        = mergeUniqueAux (rest ++ b) (s :: acc) := by
      simp only [List.cons_append, mergeUniqueAux, hts]
      simp [hne, hnacc]
    rw [hstep, ht]
    simp

theorem mergeUniqueAux_clean (l : List String) :
    ∀ acc, (∀ s ∈ acc, cleanS s) → acc.Nodup →
    (∀ s ∈ mergeUniqueAux l acc, cleanS s) ∧ (mergeUniqueAux l acc).Nodup := by
  induction l with
  | nil =>
    intro acc hacc hnd
    constructor
    · intro s hs
      exact hacc s (by simpa [mergeUniqueAux] using hs)
    · simpa [mergeUniqueAux] using hnd
  | cons s rest ih =>
    intro acc hacc hnd
    by_cases h1 : jsTrim s = ""
    · simpa [mergeUniqueAux, h1] using ih acc hacc hnd
    · by_cases h2 : jsTrim s ∈ acc
      · simpa [mergeUniqueAux, h1, h2] using ih acc hacc hnd
      · have hacc' : ∀ x ∈ jsTrim s :: acc, cleanS x := by
          intro x hx
          rcases List.mem_cons.mp hx with h' | h'
          · subst h'; exact ⟨jsTrim_idem s, h1⟩
          · exact hacc x h'
        have hnd' : (jsTrim s :: acc).Nodup := List.Nodup.cons h2 hnd
        simpa [mergeUniqueAux, h1, h2] using ih (jsTrim s :: acc) hacc' hnd'

theorem mergeUnique_clean (a b : List String) :
    (∀ s ∈ mergeUnique a b, cleanS s) ∧ (mergeUnique a b).Nodup :=
  mergeUniqueAux_clean (a ++ b) [] (by intro s hs; simp at hs) List.nodup_nil

theorem mergeUnique_front (a b : List String) (hnd : a.Nodup)
    (h : ∀ s ∈ a, cleanS s) : ∃ t, mergeUnique a b = a ++ t := by
  obtain ⟨t, ht⟩ := mergeUniqueAux_front a b [] hnd
    (fun s hs => ⟨h s hs, by simp⟩)
  exact ⟨t, by simpa [mergeUnique] using ht⟩

theorem mergeUnique_ne_nil (x : String) (xs b : List String) (hx : cleanS x) :
    mergeUnique (x :: xs) b ≠ [] := by
  obtain ⟨t, ht⟩ := mergeUniqueAux_exists (xs ++ b) [x]
  have hstep : mergeUnique (x :: xs) b = mergeUniqueAux (xs ++ b) [x] := by
    simp only [mergeUnique, List.cons_append, mergeUniqueAux, hx.1]
    simp [hx.2]
  rw [hstep, ht]
  simp

theorem mergeUniqueAux_acc_mem (l : List String) :
    ∀ acc x, x ∈ acc → x ∈ mergeUniqueAux l acc := by
  induction l with
  | nil =>
    intro acc x hx
    simpa [mergeUniqueAux] using hx
  | cons s rest ih =>
    intro acc x hx
    by_cases h1 : jsTrim s = ""
    · simpa [mergeUniqueAux, h1] using ih acc x hx
    · by_cases h2 : jsTrim s ∈ acc
      · simpa [mergeUniqueAux, h1, h2] using ih acc x hx
      · have : x ∈ jsTrim s :: acc := List.mem_cons_of_mem _ hx
        simpa [mergeUniqueAux, h1, h2] using ih (jsTrim s :: acc) x this

theorem mergeUniqueAux_mem (l : List String) :
    ∀ acc x, cleanS x → x ∈ l → x ∈ mergeUniqueAux l acc := by
  induction l with
  | nil => intro acc x _ hx; simp at hx
  | cons s rest ih =>
    intro acc x hcx hx
    rcases List.mem_cons.mp hx with h' | h'
    · subst h'
      by_cases h2 : jsTrim x ∈ acc
      · have : x ∈ acc := by rwa [hcx.1] at h2
        exact mergeUniqueAux_acc_mem _ acc x this
      · have h2' : x ∉ acc := by rwa [hcx.1] at h2
        have hstep : mergeUniqueAux (x :: rest) acc
            = mergeUniqueAux rest (jsTrim x :: acc) := by
          simp only [mergeUniqueAux, hcx.1]
          simp [hcx.2, h2']
        rw [hstep]
        apply mergeUniqueAux_acc_mem
        rw [hcx.1]
        exact List.mem_cons_self _ _
    · by_cases h1 : jsTrim s = ""
      · simpa [mergeUniqueAux, h1] using ih acc x hcx h'
      · by_cases h2 : jsTrim s ∈ acc
        · simpa [mergeUniqueAux, h1, h2] using ih acc x hcx h'
        · simpa [mergeUniqueAux, h1, h2] using ih (jsTrim s :: acc) x hcx h'

theorem mergeUnique_mem (a b : List String) (x : String) (hcx : cleanS x)
    (hx : x ∈ a ++ b) : x ∈ mergeUnique a b :=
  mergeUniqueAux_mem (a ++ b) [] x hcx hx

/-! ## Environment snapshot (route.ts lines 353-467) -/

/-- An environment snapshot as it arrives in the request body: every field may
be absent or of the wrong type (then behaving as absent under the coercions). -/
structure RawEnvironment where
  timeOfDay : Option String := none
  weather : Option String := none
  temperatureC : Option Int := none
  humidityPct : Option Int := none
  wind : Option String := none
  lighting : Option String := none
  terrain : Option String := none
  visibility : Option String := none
  noiseLevel : Option String := none
  procedureUsedText : Option String := none
  controlsAvailable : Option (List String) := none
deriving DecidableEq, Inhabited

/-- The normalized environment produced by `normalizeEnvironment`. -/
structure Environment where
  timeOfDay : Option String
  weather : Option String
  temperatureC : Option Int
  humidityPct : Option Int
  wind : Option String
  lighting : Option String
  terrain : Option String
  visibility : Option String
  noiseLevel : Option String
  procedureUsedText : Option String
  controlsAvailable : List String
deriving DecidableEq, Inhabited

/-- `toStrOrNull` inside `normalizeEnvironment`: keep a string only when its
trim is non-empty. -/
def toStrOrNull (v : Option String) : Option String :=
  match v with
  | some s => if jsTrim s ≠ "" then some s else none
  | none => none

/-- `normalizeEnvironment` (route.ts lines 448-467). -/
def normalizeEnvironment (e : RawEnvironment) : Environment :=
  { timeOfDay := toStrOrNull e.timeOfDay
    weather := toStrOrNull e.weather
    temperatureC := e.temperatureC
    humidityPct := e.humidityPct
    wind := toStrOrNull e.wind
    lighting := toStrOrNull e.lighting
    terrain := toStrOrNull e.terrain
    visibility := toStrOrNull e.visibility
    noiseLevel := toStrOrNull e.noiseLevel
    procedureUsedText := toStrOrNull e.procedureUsedText
    controlsAvailable := (e.controlsAvailable.getD []).map jsTrim |>.filter (fun s => s ≠ "") }

/-- Re-embed a normalized environment where the source passes it back through
`normalizeEnvironment` (`ats.environment ?? environment`). -/
def Environment.toRaw (e : Environment) : RawEnvironment :=
  { timeOfDay := e.timeOfDay
    weather := e.weather
    temperatureC := e.temperatureC
    humidityPct := e.humidityPct
    wind := e.wind
    lighting := e.lighting
    terrain := e.terrain
    visibility := e.visibility
    noiseLevel := e.noiseLevel
    procedureUsedText := e.procedureUsedText
    controlsAvailable := some e.controlsAvailable }

/-- The three task flags (`!!payload.lifting` etc.). -/
structure Tasks where
  lifting : Bool
  hotWork : Bool
  workAtHeight : Bool
deriving DecidableEq, Inhabited

/-- `computeStopWorkTriggers` (route.ts lines 353-443): the Environment
Trigger Evaluator.  Each rule contributes its trigger strings in declaration
order. -/
def computeStopWorkTriggers (env : Environment) (tasks : Tasks) : List String :=
  let weather := env.weather.getD ""
  let wind := env.wind.getD ""
  let lighting := env.lighting.getD ""
  let terrain := env.terrain.getD ""
  let visibility := env.visibility.getD ""
  let timeOfDay := env.timeOfDay.getD ""
  (if weather = "Tormenta eléctrica" ∧ (tasks.lifting ∨ tasks.workAtHeight ∨ tasks.hotWork) then
    ["Tormenta eléctrica: suspender actividades expuestas (izaje/alturas/hot work) y asegurar el área."]
   else []) ++
  (if weather = "Lluvia" ∧ tasks.workAtHeight then
    ["Lluvia: evaluar superficie resbalosa, anclajes y visibilidad; si no hay condiciones seguras → STOP WORK en alturas."]
   else []) ++
  (if (wind = "Fuerte" ∨ weather = "Viento fuerte") ∧ tasks.lifting then
    ["Viento fuerte: STOP WORK para izaje hasta que condiciones sean seguras (control de oscilación/carga)."]
   else []) ++
  (if (wind = "Fuerte" ∨ weather = "Viento fuerte") ∧ tasks.workAtHeight then
    ["Viento fuerte: suspender trabajo en alturas si compromete estabilidad o control del trabajador."]
   else []) ++
  (if visibility = "Baja" then
    ["Visibilidad baja: STOP WORK si no se puede garantizar control del área, señalización, comunicación y supervisión."]
   else []) ++
  (if lighting = "Deficiente" then
    ["Iluminación deficiente: STOP WORK si no se puede corregir con iluminación artificial adecuada."]
   else []) ++
  (if timeOfDay = "Noche" ∧ lighting = "" then
    ["Trabajo nocturno sin especificar iluminación: STOP WORK hasta confirmar iluminación y controles."]
   else []) ++
  (if terrain = "Húmedo/Resbaloso" ∨ terrain = "Barro" then
    (if tasks.workAtHeight ∨ tasks.lifting then
      ["Superficie resbalosa/barro: STOP WORK si compromete estabilidad de equipos/personas o zonas de exclusión."]
     else
      ["Superficie resbalosa/barro: reforzar control de caídas al mismo nivel y demarcación; detener si no hay control."])
   else []) ++
  (match env.temperatureC with
   | some t => if t ≥ 35 then
      ["Temperatura elevada (≥35°C): detener si no hay pausas, hidratación, sombra y monitoreo (estrés térmico)."]
     else []
   | none => []) ++
  (match env.humidityPct, env.temperatureC with
   | some h, some t => if h ≥ 85 ∧ t ≥ 30 then
      ["Alta humedad + calor: riesgo de estrés térmico; detener si no hay control administrativo y vigilancia."]
     else []
   | _, _ => []) ++
  (if weather = "Neblina" ∧ tasks.lifting then
    ["Neblina: STOP WORK para izaje si la visibilidad compromete señalización, señalero y control de área."]
   else [])

/-! ## Procedure briefs and the aggregator (route.ts lines 469-538, 543-572) -/

structure RawCriticalControls where
  engineering : Option (List String) := none
  administrative : Option (List String) := none
  ppe : Option (List String) := none
deriving DecidableEq, Inhabited

structure RawBriefData where
  scope : Option String := none
  mandatory_permits : Option (List String) := none
  critical_controls : Option RawCriticalControls := none
  stop_work : Option (List String) := none
  mandatory_steps : Option (List String) := none
  restrictions : Option (List String) := none
deriving DecidableEq, Inhabited

/-- A procedure (or lesson-learned) reference as it arrives in the request. -/
structure RawProcedureRef where
  title : Option String := none
  code : Option String := none
  origin : Option String := none
  parseable : Option Bool := none
  brief : Option RawBriefData := none
deriving DecidableEq, Inhabited

structure CriticalControls where
  engineering : List String
  administrative : List String
  ppe : List String
deriving DecidableEq, Inhabited

structure BriefData where
  scope : String
  mandatory_permits : List String
  critical_controls : CriticalControls
  stop_work : List String
  mandatory_steps : List String
  restrictions : List String
deriving DecidableEq, Inhabited

structure ProcedureRef where
  title : String
  code : String
  origin : String
  parseable : Bool
  brief : BriefData
deriving DecidableEq, Inhabited

/-- `normalizeProcedureRef` (route.ts lines 469-497). -/
def normalizeProcedureRef (p : RawProcedureRef) : ProcedureRef :=
  let critical := p.brief.bind RawBriefData.critical_controls
  { title := pickString p.title "Procedimiento"
    code := pickString p.code ""
    origin := pickString p.origin ""
    parseable := p.parseable.getD true
    brief :=
      { scope := pickString (p.brief.bind RawBriefData.scope) ""
        mandatory_permits := safeArrayStringsO (p.brief.bind RawBriefData.mandatory_permits)
        critical_controls :=
          { engineering := safeArrayStringsO (critical.bind RawCriticalControls.engineering)
            administrative := safeArrayStringsO (critical.bind RawCriticalControls.administrative)
            ppe := safeArrayStringsO (critical.bind RawCriticalControls.ppe) }
        stop_work := safeArrayStringsO (p.brief.bind RawBriefData.stop_work)
        mandatory_steps := safeArrayStringsO (p.brief.bind RawBriefData.mandatory_steps)
        restrictions := safeArrayStringsO (p.brief.bind RawBriefData.restrictions) } }

/-- The trivial re-embedding of an already-normalized reference, for the spots
where the source passes a normalized object back through
`normalizeProcedureRef`. -/
def ProcedureRef.toRaw (p : ProcedureRef) : RawProcedureRef :=
  { title := some p.title
    code := some p.code
    origin := some p.origin
    parseable := some p.parseable
    brief := some
      { scope := some p.brief.scope
        mandatory_permits := some p.brief.mandatory_permits
        critical_controls := some
          { engineering := some p.brief.critical_controls.engineering
            administrative := some p.brief.critical_controls.administrative
            ppe := some p.brief.critical_controls.ppe }
        stop_work := some p.brief.stop_work
        mandatory_steps := some p.brief.mandatory_steps
        restrictions := some p.brief.restrictions } }

/-- Source attribution `{ title, code, origin }`. -/
structure SourceRef where
  title : String
  code : String
  origin : String
deriving DecidableEq, Inhabited

/-- One derived-control entry of `procedure_influence.derived_controls`. -/
structure DerivedControl where
  level : String
  control : String
  source : SourceRef
deriving DecidableEq, Inhabited

/-- The deduplication key: level, control text, source code-or-title
(`x.source.code || x.source.title`). -/
def controlKey (x : DerivedControl) : String :=
  x.level ++ "::" ++ x.control ++ "::" ++
    (if x.source.code = "" then x.source.title else x.source.code)

/-- All derived controls, in collection order (route.ts lines 511-523):
per applied procedure, engineering then administrative then PPE. -/
def derivedControlsAll (applied : List ProcedureRef) : List DerivedControl :=
  (applied.map (fun p =>
    let src : SourceRef := { title := p.title, code := p.code, origin := p.origin }
    (p.brief.critical_controls.engineering.filter (fun c => jsTrim c ≠ "")).map
      (fun c => { level := "engineering", control := c, source := src }) ++
    (p.brief.critical_controls.administrative.filter (fun c => jsTrim c ≠ "")).map
      (fun c => { level := "administrative", control := c, source := src }) ++
    (p.brief.critical_controls.ppe.filter (fun c => jsTrim c ≠ "")).map
      (fun c => { level := "ppe", control := c, source := src }))).flatten

/-- First-occurrence filter over `controlKey` (route.ts lines 525-531),
with the set of already-seen keys made explicit. -/
def dedupDerivedControlsAux : List DerivedControl → List String → List DerivedControl
  | [], _ => []
  | x :: rest, seen =>
    if controlKey x ∈ seen then dedupDerivedControlsAux rest seen
    else x :: dedupDerivedControlsAux rest (controlKey x :: seen)

def dedupDerivedControls (l : List DerivedControl) : List DerivedControl :=
  dedupDerivedControlsAux l []

structure ProcedureInfluence where
  applied : List SourceRef
  not_parseable : List SourceRef
  derived_controls : List DerivedControl
deriving DecidableEq, Inhabited

/-- The applied sub-list (`parseable !== false`) of the normalized refs. -/
def appliedRefs (procedure_refs : List RawProcedureRef) : List ProcedureRef :=
  (procedure_refs.map normalizeProcedureRef).filter (fun p => p.parseable ≠ false)

/-- `buildProcedureInfluence` (route.ts lines 499-538): the Procedure
Reference Normalizer & Aggregator. -/
def buildProcedureInfluence (procedure_refs : List RawProcedureRef) : ProcedureInfluence :=
  let normalized := procedure_refs.map normalizeProcedureRef
  let applied := normalized.filter (fun p => p.parseable ≠ false)
  let notParseable := normalized.filter (fun p => p.parseable = false)
  { applied := applied.map (fun p => { title := p.title, code := p.code, origin := p.origin })
    not_parseable := notParseable.map (fun p => { title := p.title, code := p.code, origin := p.origin })
    derived_controls := dedupDerivedControls (derivedControlsAll applied) }

/-- `extractLessonLearnedRef` (route.ts lines 543-572); the argument stands
for the first non-null candidate of the `??` chain over the request body. -/
def extractLessonLearnedRef (ll : Option RawProcedureRef) : Option ProcedureRef :=
  match ll with
  | none => none
  | some raw =>
    let normalized := normalizeProcedureRef
      { raw with
        origin := some (pickString raw.origin "Lección aprendida")
        title := some (pickString raw.title "Lección aprendida")
        parseable := some true }
    let hasUsefulBrief :=
      normalized.brief.scope ≠ "" ∨
      normalized.brief.mandatory_permits ≠ [] ∨
      normalized.brief.mandatory_steps ≠ [] ∨
      normalized.brief.stop_work ≠ [] ∨
      normalized.brief.restrictions ≠ [] ∨
      normalized.brief.critical_controls.engineering ≠ [] ∨
      normalized.brief.critical_controls.administrative ≠ [] ∨
      normalized.brief.critical_controls.ppe ≠ []
    if hasUsefulBrief then some normalized else none

/-! ### Dedup facts used by claim C7 -/

theorem dedupDerivedControlsAux_nodup (l : List DerivedControl) :
    ∀ seen, (((dedupDerivedControlsAux l seen).map controlKey).Nodup ∧
      ∀ k ∈ (dedupDerivedControlsAux l seen).map controlKey, k ∉ seen) := by
  induction l with
  | nil => intro seen; simp [dedupDerivedControlsAux]
  | cons x rest ih =>
    intro seen
    by_cases h : controlKey x ∈ seen
    · constructor
      · simpa [dedupDerivedControlsAux, h] using (ih seen).1
      · simpa [dedupDerivedControlsAux, h] using (ih seen).2
    · obtain ⟨ihn, ihs⟩ := ih (controlKey x :: seen)
      constructor
      · simp only [dedupDerivedControlsAux, h, if_false, ite_false, List.map_cons]
        refine List.Nodup.cons ?_ ihn
        intro hmem
        exact (ihs _ hmem) (List.mem_cons_self _ _)
      · simp only [dedupDerivedControlsAux, h, if_false, ite_false, List.map_cons]
        intro k hk
        rcases List.mem_cons.mp hk with h' | h'
        · subst h'; exact h
        · intro hks
          exact (ihs _ h') (List.mem_cons_of_mem _ hks)

theorem dedupDerivedControlsAux_complete (l : List DerivedControl) :
    ∀ seen k, k ∈ l.map controlKey →
      k ∈ seen ∨ k ∈ (dedupDerivedControlsAux l seen).map controlKey := by
  induction l with
  | nil => intro seen k hk; simp at hk
  | cons x rest ih =>
    intro seen k hk
    simp only [List.map_cons, List.mem_cons] at hk
    by_cases h : controlKey x ∈ seen
    · rcases hk with h' | h'
      · exact Or.inl (h' ▸ h)
      · simpa [dedupDerivedControlsAux, h] using ih seen k h'
    · rcases hk with h' | h'
      · subst h'
        right
        simp [dedupDerivedControlsAux, h]
      · rcases ih (controlKey x :: seen) k h' with hs | ho
        · rcases List.mem_cons.mp hs with h'' | h''
          · right; simp [dedupDerivedControlsAux, h, h'']
          · exact Or.inl h''
        · right
          simp only [dedupDerivedControlsAux, h, if_false, ite_false, List.map_cons]
          exact List.mem_cons_of_mem _ ho

theorem dedupDerivedControlsAux_fixed (l : List DerivedControl) :
    ∀ seen, ((l.map controlKey).Nodup) → (∀ k ∈ l.map controlKey, k ∉ seen) →
      dedupDerivedControlsAux l seen = l := by
  induction l with
  | nil => intro seen _ _; rfl
  | cons x rest ih =>
    intro seen hnd hdisj
    have hx : controlKey x ∉ seen := hdisj _ (by simp)
    have hrest : ∀ k ∈ rest.map controlKey, k ∉ controlKey x :: seen := by
      intro k hk
      intro hmem
      rcases List.mem_cons.mp hmem with h' | h'
      · simp only [List.map_cons] at hnd
        exact (List.Nodup.not_mem hnd) (h' ▸ hk)
      · exact hdisj k (by simp [hk]) h'
    simp only [dedupDerivedControlsAux, hx, if_false, ite_false]
    rw [ih (controlKey x :: seen) (by simpa using hnd.of_cons) hrest]

/-! ## Checklist "Formato Estrella" (route.ts lines 577-816) -/

structure ChecklistAction where
  priority : String
  category : String
  action : String
  evidence : List String
deriving DecidableEq, Inhabited

structure SupervisorChecks where
  stagesClarity : String
  hazardsControlled : String
  isolationConfirmed : String
  commsAgreed : String
  toolsOk : String
deriving DecidableEq, Inhabited

structure ChecklistSnapshot where
  incidentsReference : String
  otherCompanies : String
  dangerTypes : List String
  environmentDangers : List String
  emergencies : List String
  safetyEquipment : List String
  lifeSavingRules : List String
  supervisorChecks : SupervisorChecks
deriving DecidableEq, Inhabited

structure DerivedControlLists where
  engineering : List String
  administrative : List String
  ppe : List String
deriving DecidableEq, Inhabited

structure ChecklistActionsPayload where
  decision_hint : String
  missing : List String
  critical_fails : List String
  derived_controls : DerivedControlLists
  actions : List ChecklistAction
  snapshot : ChecklistSnapshot
deriving DecidableEq, Inhabited

/-- The raw `estrella_format` object of the request body.  The five
supervisor answers stand for `s?.authorizations?.supervisor?.checks`; the
yes/no flags are `String`-coerced by `normalizeYesNo` so an absent value is
the empty string; list fields go through `safeArrayStrings`. -/
structure EstrellaFormat where
  incidentsReference : String := ""
  otherCompanies : String := ""
  dangerTypes : List String := []
  environmentDangers : List String := []
  emergencies : List String := []
  safetyEquipment : List String := []
  lifeSavingRules : List String := []
  elaborationDate : Option String := none
  executionDate : Option String := none
  supStagesClarity : Option String := none
  supHazardsControlled : Option String := none
  supIsolationConfirmed : Option String := none
  supCommsAgreed : Option String := none
  supToolsOk : Option String := none
deriving DecidableEq, Inhabited

/-- The five supervisor verification items with label / value / full text,
in declaration order (route.ts lines 637-643). -/
def supMap (c : SupervisorChecks) : List (String × String × String) :=
  [("Claridad de etapas", c.stagesClarity,
    "Tengo claridad de todas las etapas del trabajo a ejecutar"),
   ("Peligros controlados", c.hazardsControlled,
    "Se han identificado y controlado todos los peligros y es seguro comenzar"),
   ("Aislamiento confirmado", c.isolationConfirmed,
    "He confirmado el aislamiento de todas las fuentes de energías peligrosas"),
   ("Comunicación acordada", c.commsAgreed,
    "Se han acordado responsabilidades y canales de comunicación del equipo"),
   ("Herramientas OK", c.toolsOk,
    "Cuento con herramientas y equipos necesarios en buenas condiciones")]

/-- The PPE lookup table (route.ts lines 711-719). -/
def ppeMapLookup (k : String) : Option String :=
  if k = "Casco" then some "Uso obligatorio de casco de seguridad."
  else if k = "Guantes" then some "Uso obligatorio de guantes adecuados a la tarea."
  else if k = "Botas de seguridad" then some "Uso obligatorio de botas de seguridad."
  else if k = "Gafas de Seguridad" then some "Uso obligatorio de gafas de seguridad."
  else if k = "Protección Auditiva" then some "Uso obligatorio de protección auditiva según niveles de ruido."
  else if k = "Protección Respiratoria" then some "Uso obligatorio de protección respiratoria según exposición."
  else if k = "Arnés de Seguridad" then some "Uso de arnés y sistema anticaídas certificado (si aplica trabajo en alturas)."
  else none

/-- `deriveChecklistDeterministic` (route.ts lines 614-774): the Checklist
Compliance Evaluator.  `workAtHeight` is the only request field the function
reads from `body`. -/
def deriveChecklistDeterministic (s : EstrellaFormat) (workAtHeight : Bool) :
    ChecklistActionsPayload :=
  let incidentsReference := normalizeYesNo s.incidentsReference
  let otherCompanies := normalizeYesNo s.otherCompanies
  let dangerTypes := safeArrayStrings s.dangerTypes
  let environmentDangers := safeArrayStrings s.environmentDangers
  let emergencies := safeArrayStrings s.emergencies
  let safetyEquipment := safeArrayStrings s.safetyEquipment
  let lifeSavingRules := safeArrayStrings s.lifeSavingRules
  let checks : SupervisorChecks :=
    { stagesClarity := pickString s.supStagesClarity ""
      hazardsControlled := pickString s.supHazardsControlled ""
      isolationConfirmed := pickString s.supIsolationConfirmed ""
      commsAgreed := pickString s.supCommsAgreed ""
      toolsOk := pickString s.supToolsOk "" }
  let supMissing := (supMap checks).foldr
    (fun item acc =>
      (if item.2.1 = "" then
        ["Falta selección en verificación del supervisor: " ++ item.1 ++ "."]
       else []) ++ acc) []
  let criticalFails := (supMap checks).foldr
    (fun item acc =>
      (if item.2.1 ≠ "" ∧ item.2.1 = "NO" then
        ["Supervisor marcó NO: " ++ item.1 ++ "."]
       else []) ++ acc) []
  let supActions := (supMap checks).foldr
    (fun item acc =>
      (if item.2.1 ≠ "" ∧ item.2.1 = "NO" then
        [{ priority := "critical", category := "administrative",
           action := "Detener el trabajo y corregir el ítem: \"" ++ item.2.2 ++
             "\". Revalidar antes de reiniciar.",
           evidence := ["Checklist supervisor"] : ChecklistAction }]
       else []) ++ acc) []
  let elab2 := pickString s.elaborationDate ""
  let exec2 := pickString s.executionDate ""
  let dateMissing :=
    (if elab2 = "" then ["Falta fecha de elaboración (Formato Estrella)."] else []) ++
    (if exec2 = "" then ["Falta fecha de ejecución (Formato Estrella)."] else [])
  let incidentsMissing :=
    if incidentsReference = "" then
      ["No se respondió: Incidentes en trabajos similares (Si/No)."]
    else []
  let incidentsActions : List ChecklistAction :=
    if incidentsReference = "Si" then
      [{ priority := "high", category := "administrative",
         action := "Revisar lecciones aprendidas/incidentes similares, definir controles específicos y socializarlos en charla preoperacional.",
         evidence := ["Incidentes en trabajos similares = Sí"] }]
    else []
  let otherMissing :=
    if otherCompanies = "" then
      ["No se respondió: Involucra personal de otras compañías (Si/No)."]
    else []
  let otherActions : List ChecklistAction :=
    if otherCompanies = "Si" then
      [{ priority := "high", category := "administrative",
         action := "Asegurar coordinación inter-contratistas: roles, responsable de área, permisos, comunicación, y control de interferencias (SIMOPS).",
         evidence := ["Otras compañías = Sí"] }]
    else []
  let dangerActions : List ChecklistAction :=
    if "Trabajo en alturas" ∈ dangerTypes ∧ workAtHeight = false then
      [{ priority := "medium", category := "administrative",
         action := "Validar coherencia: se marcó 'Trabajo en alturas' pero la condición 'Trabajo en alturas' no está activa. Confirmar si aplica y ajustar.",
         evidence := ["Tipos de peligros"] }]
    else []
  let emergencyActions : List ChecklistAction :=
    if emergencies.length = 0 then
      [{ priority := "medium", category := "administrative",
         action := "Confirmar escenarios de emergencia aplicables (médica, incendio, H2S, ambiental, etc.) y verificar plan de respuesta (rutas, puntos, comunicación).",
         evidence := ["Emergencias sin selección"] }]
    else []
  let ppeDerived := safetyEquipment.filterMap ppeMapLookup
  let adminDerived :=
    (if "Señalización/Conos/Limitación de Área" ∈ safetyEquipment then
      ["Delimitar y señalizar el área de trabajo; controlar accesos."] else []) ++
    (if "Medición de gases" ∈ safetyEquipment then
      ["Realizar medición de gases previa y continua cuando aplique; registrar resultados."] else []) ++
    (if "Extintores / Matafuegos" ∈ safetyEquipment then
      ["Verificar extintor disponible/operativo y permiso de trabajo en caliente cuando aplique."] else []) ++
    (if "Lockout/Layout/ EMN" ∈ safetyEquipment then
      ["Aplicar aislamiento de energías peligrosas (LOTO) y verificación de energía cero si aplica."] else [])
  let lifeActions : List ChecklistAction :=
    if lifeSavingRules.length = 0 then
      [{ priority := "medium", category := "administrative",
         action := "Seleccionar y verificar 'Acuerdos de Vida' aplicables antes de iniciar. Si algún control no está implementado → detener y solicitar ayuda.",
         evidence := ["Acuerdos de vida sin selección"] }]
    else []
  let missing := supMissing ++ dateMissing ++ incidentsMissing ++ otherMissing
  let actions := supActions ++ incidentsActions ++ otherActions ++ dangerActions ++
    emergencyActions ++ lifeActions
  let decision_hint :=
    if criticalFails ≠ [] then "STOP"
    else if missing ≠ [] ∨ actions.any (fun a => a.priority == "high" || a.priority == "medium") then
      "REVIEW_REQUIRED"
    else "CONTINUE"
  { decision_hint := decision_hint
    missing := missing
    critical_fails := criticalFails
    derived_controls := { administrative := adminDerived, ppe := ppeDerived, engineering := [] }
    actions := actions
    snapshot :=
      { incidentsReference := incidentsReference
        otherCompanies := otherCompanies
        dangerTypes := dangerTypes
        environmentDangers := environmentDangers
        emergencies := emergencies
        safetyEquipment := safetyEquipment
        lifeSavingRules := lifeSavingRules
        supervisorChecks := checks } }

/-! ## Checklist sanitizer and AI enrichment (route.ts lines 776-884) -/

structure RawChecklistAction where
  priority : Option String := none
  category : Option String := none
  action : Option String := none
  evidence : Option (List String) := none
deriving DecidableEq, Inhabited

/-- A checklist payload of untrusted provenance (model output). -/
structure RawChecklistPayload where
  decision_hint : Option String := none
  missing : Option (List String) := none
  critical_fails : Option (List String) := none
  dcEngineering : Option (List String) := none
  dcAdministrative : Option (List String) := none
  dcPpe : Option (List String) := none
  actions : Option (List RawChecklistAction) := none
  snapshot : Option ChecklistSnapshot := none
deriving DecidableEq, Inhabited

def ChecklistAction.toRaw (a : ChecklistAction) : RawChecklistAction :=
  { priority := some a.priority, category := some a.category,
    action := some a.action, evidence := some a.evidence }

def ChecklistActionsPayload.toRaw (p : ChecklistActionsPayload) : RawChecklistPayload :=
  { decision_hint := some p.decision_hint
    missing := some p.missing
    critical_fails := some p.critical_fails
    dcEngineering := some p.derived_controls.engineering
    dcAdministrative := some p.derived_controls.administrative
    dcPpe := some p.derived_controls.ppe
    actions := some (p.actions.map ChecklistAction.toRaw)
    snapshot := some p.snapshot }

/-- `sanitizeChecklistActions` (route.ts lines 776-816) on an object input.
The `x && typeof x === "object" ? x : fallback` head is handled at the call
sites (`sanitizeChecklistActionsOpt`). -/
def sanitizeChecklistActions (o : RawChecklistPayload) (fallback : ChecklistActionsPayload) :
    ChecklistActionsPayload :=
  let decision_hint :=
    match o.decision_hint with
    | some d => if d ∈ ["STOP", "REVIEW_REQUIRED", "CONTINUE"] then d else fallback.decision_hint
    | none => fallback.decision_hint
  let actions :=
    match o.actions with
    | some l =>
      (l.map (fun a =>
        { priority := match a.priority with
            | some p => if p ∈ ["critical", "high", "medium", "low"] then p else "medium"
            | none => "medium"
          category := match a.category with
            | some c => if c ∈ ["administrative", "engineering", "ppe"] then c else "administrative"
            | none => "administrative"
          action := pickString a.action ""
          evidence := safeArrayStringsO a.evidence : ChecklistAction })).filter
        (fun a => jsTrim a.action ≠ "")
    | none => fallback.actions
  { decision_hint := decision_hint
    missing := safeArrayStringsO o.missing
    critical_fails := safeArrayStringsO o.critical_fails
    derived_controls :=
      { engineering := safeArrayStringsO o.dcEngineering
        administrative := safeArrayStringsO o.dcAdministrative
        ppe := safeArrayStringsO o.dcPpe }
    actions := actions
    snapshot := o.snapshot.getD fallback.snapshot }

/-- An external call to the generative service: the promise rejects
(unreachable / timeout), or resolves with text whose `JSON.parse` fails
(`returns none`) or yields a payload (`returns (some _)`). -/
inductive ServiceCall (α : Type) where
  | throws : ServiceCall α
  | returns : Option α → ServiceCall α
deriving DecidableEq

/-- `hasSignal` inside `enrichChecklistWithAI` (route.ts lines 824-827). -/
def hasSignal (base : ChecklistActionsPayload) : Bool :=
  !base.actions.isEmpty || !base.missing.isEmpty || !base.critical_fails.isEmpty

/-- `enrichChecklistWithAI` (route.ts lines 821-884).  Only the `JSON.parse`
of the response and the subsequent processing sit inside a `try`; a rejected
service call escapes the function (herein `Except.error ()`), to be caught by
the route's outer handler. -/
def enrichChecklistWithAI (apiKeySet : Bool) (base : ChecklistActionsPayload)
    (call : ServiceCall RawChecklistPayload) : Except Unit ChecklistActionsPayload :=
  if apiKeySet = false then .ok base
  else if hasSignal base = false then .ok base
  else
    match call with
    | .throws => .error ()
    | .returns none => .ok base
    | .returns (some parsed) =>
      let parsed := if base.critical_fails ≠ [] then
        { parsed with decision_hint := some "STOP" } else parsed
      let parsed := if base.critical_fails = [] ∧ base.missing ≠ [] then
        { parsed with decision_hint := some "REVIEW_REQUIRED" } else parsed
      .ok (sanitizeChecklistActions parsed base)

/-! ## Normative references and recommendations (route.ts lines 325-348, 1640-1679) -/

structure RawNormRef where
  standard : Option String := none
  clause : Option String := none
  note : Option String := none
  url : Option String := none
deriving DecidableEq, Inhabited

structure NormRef where
  standard : String
  clause : Option String
  note : Option String
  url : Option String
deriving DecidableEq, Inhabited

/-- `normalizeNormRefs` (route.ts lines 332-348). -/
def normalizeNormRefs (l : List RawNormRef) : List NormRef :=
  ((l.map (fun x =>
      { standard := jsTrim (pickString x.standard "")
        clause := some (jsTrim (pickString x.clause ""))
        note := some (jsTrim (pickString x.note ""))
        url := some (jsTrim (pickString x.url "")) : NormRef })).filter
    (fun x => x.standard ≠ "")).map
    (fun x =>
      { standard := x.standard
        clause := match x.clause with
          | some c => if c ≠ "" then some c else none
          | none => none
        note := match x.note with
          | some n => if n ≠ "" then some n else none
          | none => none
        url := match x.url with
          | some u => if u ≠ "" then some u else none
          | none => none })

def NormRef.toRaw (n : NormRef) : RawNormRef :=
  { standard := some n.standard, clause := n.clause, note := n.note, url := n.url }

structure RawBasedOn where
  standard : Option String := none
  clause : Option String := none
deriving DecidableEq, Inhabited

structure RawRecommendation where
  topic : Option String := none
  recommendation : Option String := none
  based_on : Option (List RawBasedOn) := none
  verification : Option String := none
deriving DecidableEq, Inhabited

structure BasedOn where
  standard : String
  clause : Option String
deriving DecidableEq, Inhabited

structure Recommendation where
  topic : String
  recommendation : String
  based_on : List BasedOn
  verification : String
deriving DecidableEq, Inhabited

/-- The recommendation post-processing (route.ts lines 1644-1679):
normalize each entry, keep only `based_on` standards cited in the request's
normative refs, drop empty entries, cap at 10. -/
def sanitizeRecommendations (allowed : List String) (l : List RawRecommendation) :
    List Recommendation :=
  ((l.map (fun r =>
      let topic := jsTrim (pickString r.topic "")
      let recommendation := jsTrim (pickString r.recommendation "")
      let verification := match r.verification with
        | some v => if v ∈ ["ok", "requires_verification"] then v else "requires_verification"
        | none => "requires_verification"
      let based_on : List BasedOn := (((r.based_on.getD []).map (fun b =>
          { standard := jsTrim (pickString b.standard "")
            clause := some (jsTrim (pickString b.clause "")) : BasedOn })).filter
          (fun b => b.standard ≠ "" ∧ b.standard ∈ allowed)).map
          (fun b => { standard := b.standard
                      clause := match b.clause with
                        | some c => if c ≠ "" then some c else none
                        | none => none : BasedOn })
      let finalVerification := if based_on ≠ [] then verification else "requires_verification"
      { topic := topic, recommendation := recommendation,
        based_on := based_on, verification := finalVerification : Recommendation })).filter
    (fun r => r.topic ≠ "" ∧ r.recommendation ≠ "")).take 10

/-! ## Document model and fallback synthesizers (route.ts lines 889-1044) -/

structure Meta where
  title : String
  company : String
  location : String
  date : String
  shift : String
deriving DecidableEq, Inhabited

structure RawMeta where
  title : Option String := none
  company : Option String := none
  location : Option String := none
  date : Option String := none
  shift : Option String := none
deriving DecidableEq, Inhabited

def Meta.toRaw (m : Meta) : RawMeta :=
  { title := some m.title, company := some m.company, location := some m.location,
    date := some m.date, shift := some m.shift }

structure Controls where
  engineering : List String
  administrative : List String
  ppe : List String
deriving DecidableEq, Inhabited

structure RawControls where
  engineering : Option (List String) := none
  administrative : Option (List String) := none
  ppe : Option (List String) := none
deriving DecidableEq, Inhabited

structure StepEntry where
  step : String
  hazards : List String
  controls : List String
deriving DecidableEq, Inhabited

structure RawStep where
  step : Option String := none
  hazards : Option (List String) := none
  controls : Option (List String) := none
deriving DecidableEq, Inhabited

structure StopWork where
  decision : String
  auto_triggers : List String
  criteria : List String
  rationale : String
deriving DecidableEq, Inhabited

structure RawStopWork where
  decision : Option String := none
  auto_triggers : Option (List String) := none
  criteria : Option (List String) := none
  rationale : Option String := none
deriving DecidableEq, Inhabited

/-- The final, schema-complete ATS document. -/
structure ATSDocument where
  meta : Meta
  environment : Environment
  hazards : List String
  controls : Controls
  steps : List StepEntry
  stop_work : StopWork
  procedure_refs_used : List SourceRef
  procedure_influence : ProcedureInfluence
  checklist_actions : ChecklistActionsPayload
  normative_refs : List NormRef
  recommendations : List Recommendation
deriving DecidableEq, Inhabited

/-- A draft document as parsed from the generative service's text: every
field untrusted.  `procedure_refs_used` and `procedure_influence` are omitted
because the route overwrites them without reading the draft's values. -/
structure RawATS where
  meta : Option RawMeta := none
  environment : Option RawEnvironment := none
  hazards : Option (List String) := none
  controls : Option RawControls := none
  steps : Option (List RawStep) := none
  stop_work : Option RawStopWork := none
  checklist_actions : Option RawChecklistPayload := none
  normative_refs : Option (List RawNormRef) := none
  recommendations : Option (List RawRecommendation) := none
deriving DecidableEq, Inhabited

/-- One guarded template of `buildFallbackHazards`: when the condition holds,
merge the template hazard into the accumulated list. -/
def hazardCond (c : Prop) [Decidable c] (x : String) (h : List String) : List String :=
  if c then mergeUnique h [x] else h

/-- `buildFallbackHazards` (route.ts lines 889-941): checklist snapshot base,
then the task-keyed and environment-keyed templates in source order, then the
trigger-context template, and a final never-empty fallback. -/
def buildFallbackHazards (checklist : ChecklistActionsPayload) (tasks : Tasks)
    (environment : Environment) (autoTriggers : List String) : List String :=
  let full :=
    hazardCond (autoTriggers.length > 0)
      "Condiciones críticas detectadas (STOP/REVIEW): ver auto_triggers y criterios de Stop Work."
      (hazardCond (environment.wind = some "Fuerte" ∨ environment.weather = some "Viento fuerte")
        "Viento fuerte: oscilación de cargas y pérdida de estabilidad/ control."
        (hazardCond (environment.weather = some "Tormenta eléctrica")
          "Tormenta eléctrica: exposición a descarga, pérdida de control de tareas expuestas."
          (hazardCond (environment.terrain = some "Húmedo/Resbaloso" ∨ environment.terrain = some "Barro")
            "Superficie resbalosa/inestable: caídas al mismo nivel, pérdida de estabilidad de equipos."
            (hazardCond (environment.lighting = some "Deficiente")
              "Iluminación deficiente: errores operacionales, tropiezos/caídas, colisiones."
              (hazardCond (environment.visibility = some "Baja")
                "Visibilidad baja: riesgo de atropellamiento/colisión y pérdida de control del área."
                (hazardCond (tasks.workAtHeight = true)
                  "Trabajo en alturas: caída a distinto nivel, caída de objetos, anclajes/linea de vida inadecuados."
                  (hazardCond (tasks.hotWork = true)
                    "Trabajo en caliente: incendio/quemaduras, chispas/proyección, atmósferas inflamables, exposición a humos."
                    (hazardCond (tasks.lifting = true)
                      "Izaje / manejo de cargas: golpeado por carga, atrapamiento, caída de carga, zona de exclusión deficiente."
                      (mergeUnique (safeArrayStrings checklist.snapshot.dangerTypes)
                        (safeArrayStrings checklist.snapshot.environmentDangers))))))))))
  if full.length = 0 then
    ["Riesgos generales de operación: interacción hombre-máquina, energías peligrosas, orden y aseo, y condiciones del entorno."]
  else full

/-- `buildFallbackSteps` (route.ts lines 943-1044). -/
def buildFallbackSteps (meta : Meta) (hazards : List String) (controls : Controls)
    (tasks : Tasks) (checklist : ChecklistActionsPayload) : List StepEntry :=
  let topHazards := hazards.take (min 6 hazards.length)
  let topControls := (mergeUnique (mergeUnique controls.engineering controls.administrative)
    controls.ppe).take 8
  [{ step := "1) Charla preoperacional, roles, comunicación y verificación de competencias.",
     hazards := topHazards,
     controls := mergeUnique
       ["Definir roles, responsable del trabajo, canales de comunicación y señales (incluye señalero si aplica)."]
       ((safeArrayStrings (checklist.actions.map ChecklistAction.action)).take 3) },
   { step := "2) Inspección del área, demarcación, control de accesos y verificación de condiciones (ambiente/orden y aseo).",
     hazards := topHazards,
     controls := mergeUnique
       ["Delimitar y señalizar el área; establecer zonas de exclusión y rutas seguras.",
        "Verificar iluminación/visibilidad/terreno y ajustar controles antes de iniciar."]
       topControls },
   { step := "3) Verificación de equipos/herramientas y controles críticos antes de iniciar (incluye EPP).",
     hazards := topHazards,
     controls := mergeUnique
       ["Inspección preoperacional de equipos/herramientas; detener si hay defectos críticos."]
       topControls }] ++
  (if tasks.lifting then
    [{ step := "4) Ejecución de izaje/manejo de carga con control de zona de exclusión y comunicación señalero-operador.",
       hazards := mergeUnique topHazards
         ["Caída de carga, golpeado por carga, atrapamiento, interacción con equipos móviles."],
       controls := mergeUnique
         ["Aplicar plan de izaje (si aplica), verificar accesorios, puntos de izaje y capacidad; usar señalero competente."]
         topControls }]
   else []) ++
  (if tasks.hotWork then
    [{ step := "4) Ejecución de trabajo en caliente con control de ignición y vigilancia de incendio.",
       hazards := mergeUnique topHazards
         ["Incendio/quemaduras, chispas/proyección, atmósfera inflamable, humos."],
       controls := mergeUnique
         ["Validar permiso de trabajo en caliente (si aplica), extintor operativo, retirar combustibles y mantener vigilancia de fuego."]
         topControls }]
   else []) ++
  (if tasks.workAtHeight then
    [{ step := "4) Ejecución de trabajo en alturas con sistema anticaídas y control de caída de objetos.",
       hazards := mergeUnique topHazards
         ["Caída a distinto nivel, anclajes inadecuados, caída de objetos."],
       controls := mergeUnique
         ["Verificar anclajes/linea de vida, plan de rescate (si aplica) y uso correcto del arnés/sistema anticaídas."]
         topControls }]
   else []) ++
  (if tasks.lifting = false ∧ tasks.hotWork = false ∧ tasks.workAtHeight = false then
    [{ step := "4) Ejecución del trabajo según plan y controles definidos.",
       hazards := topHazards,
       controls := topControls }]
   else []) ++
  [{ step := "5) Cierre del trabajo: retiro de demarcación, housekeeping, verificación final y registro de novedades.",
     hazards := ["Exposición residual por energías/orden y aseo, interacción con equipos en retiro."],
     controls :=
       ["Asegurar condición segura final del área, retiro controlado de señalización y entrega del sitio.",
        "Registrar observaciones/incidentes/casi-incidentes y controles implementados.",
        "Registrar ATS: " ++ meta.title ++ " | " ++ meta.location ++ " | " ++ meta.date ++
          " | Turno: " ++ meta.shift] }]

/-! ## Reconciliation & Guardrail Enforcer (route.ts lines 1346-1742) -/

/-- The fixed stop-work criteria text (route.ts lines 1407-1413). -/
def generalCriteria : List String :=
  ["Condiciones meteorológicas severas (tormenta eléctrica, vientos fuertes) que comprometan el control de la tarea.",
   "Visibilidad/iluminación insuficiente para operar de forma segura.",
   "Superficie/terreno inestable o resbaloso sin mitigación efectiva.",
   "Fallas de equipos críticos, ausencia de permisos/aislamientos, o falta de personal competente.",
   "Cualquier condición insegura que no pueda controlarse inmediatamente."]

/-- The trigger-based decision rewrite (route.ts lines 1566-1574): with a
non-empty trigger seed a draft decision of CONTINUE becomes REVIEW_REQUIRED
(with a guardrail sentence appended to the rationale); with an empty seed an
unrecognized decision value becomes CONTINUE. -/
def reconcileTriggerRewrite (autoTriggers : List String) (decision rationale : String) :
    String × String :=
  let dr :=
    if autoTriggers ≠ [] ∧ decision = "CONTINUE" then
      ("REVIEW_REQUIRED",
       (if rationale ≠ "" then rationale ++ " " else "") ++
         "Hay condiciones críticas detectadas automáticamente; se requiere revisión y control antes de continuar.")
    else (decision, rationale)
  if autoTriggers = [] ∧ dr.1 ∉ ["STOP", "CONTINUE", "REVIEW_REQUIRED"] then
    ("CONTINUE", dr.2)
  else dr

/-- The checklist-hint decision rewrite (route.ts lines 1616-1628): hint STOP
forces STOP; hint REVIEW_REQUIRED raises CONTINUE to REVIEW_REQUIRED. -/
def reconcileHintRewrite (hint decision rationale : String) : String × String :=
  if hint = "STOP" ∧ decision ≠ "STOP" then
    ("STOP",
     (if rationale ≠ "" then rationale ++ " " else "") ++
       "Checklist corporativo (Formato Estrella) indica STOP por verificación negativa o control crítico no cumplido.")
  else if hint = "REVIEW_REQUIRED" ∧ decision = "CONTINUE" then
    ("REVIEW_REQUIRED",
     (if rationale ≠ "" then rationale ++ " " else "") ++
       "Checklist corporativo (Formato Estrella) requiere verificación adicional antes de continuar.")
  else (decision, rationale)

/-- The merged checklist with the final guardrails (route.ts lines 1583-1595).
Because `enrichChecklistWithAI` always returns a complete payload, the object
spread `{...checklistFromModel, ...enriched}` reads every sanitized key from
`enriched`; the draft's own `checklist_actions` never survives the spread. -/
def finalChecklist (checklistBase enriched : ChecklistActionsPayload) :
    ChecklistActionsPayload :=
  let m := sanitizeChecklistActions enriched.toRaw checklistBase
  let m := if checklistBase.critical_fails ≠ [] then { m with decision_hint := "STOP" } else m
  if checklistBase.critical_fails = [] ∧ checklistBase.missing ≠ [] ∧ m.decision_hint = "CONTINUE"
  then { m with decision_hint := "REVIEW_REQUIRED" } else m

/-- Appending checklist critical-fail reasons into the trigger list
(route.ts lines 1630-1637). -/
def finalAutoTriggers (autoTriggers cf : List String) : List String :=
  if cf ≠ [] then mergeUnique autoTriggers (cf.map (fun x => "Checklist: " ++ x))
  else autoTriggers

/-- `ats.stop_work.decision` as the post-processing first reads it (an absent
value behaves as a string unequal to every decision constant). -/
def draftDecision (ats0 : RawATS) : String :=
  (ats0.stop_work.bind RawStopWork.decision).getD ""

/-- `ats.stop_work.rationale` with its deterministic default
(route.ts lines 1561-1564). -/
def draftRationale (ats0 : RawATS) (autoTriggers : List String) : String :=
  pickString (ats0.stop_work.bind RawStopWork.rationale)
    (if autoTriggers ≠ [] then "Condiciones críticas detectadas; requiere revisión."
     else "Sin condiciones críticas detectadas.")

/-- The step-list sanitizer (route.ts lines 1551-1556 and 1729-1734). -/
def sanitizeRawSteps (l : List RawStep) : List StepEntry :=
  l.map (fun s =>
    { step := pickString s.step ""
      hazards := safeArrayStringsO s.hazards
      controls := safeArrayStringsO s.controls })

/-- The hazards completeness enforcement (route.ts lines 1686-1693 and
1707-1717): fall back when empty, and when still under 3 merge the fallback
in (never replacing) and cap at 12.  Both fallback invocations in the source
receive identical arguments, so the synthesized list is one parameter. -/
def completeHazards (hz0 fb : List String) : List String :=
  let h1 := if hz0.length = 0 then fb else hz0
  if h1.length < 3 then (mergeUnique h1 fb).take 12 else h1

/-- The steps completeness enforcement (route.ts lines 1696-1704, 1718-1726
and 1729-1734): fall back when empty (using the hazards list as of that
point, `h1`), rebuild when under 4 (using the final hazards `h2`), then
re-sanitize.  `fb` is the fallback synthesizer applied to a hazards list. -/
def completeSteps (steps0 : List StepEntry) (fb : List String → List StepEntry)
    (h1 h2 : List String) : List StepEntry :=
  let s1 := if steps0.length = 0 then fb h1 else steps0
  let s2 := if s1.length < 4 then fb h2 else s1
  s2.map (fun s =>
    { step := s.step
      hazards := safeArrayStrings s.hazards
      controls := safeArrayStrings s.controls })

/-- Meta reconstruction (route.ts lines 1534-1540). -/
def reconcileMeta (meta : Meta) (ats0 : RawATS) : Meta :=
  { title := pickString (ats0.meta.bind RawMeta.title) meta.title
    company := pickString (ats0.meta.bind RawMeta.company) meta.company
    location := pickString (ats0.meta.bind RawMeta.location) meta.location
    date := pickString (ats0.meta.bind RawMeta.date) meta.date
    shift := pickString (ats0.meta.bind RawMeta.shift) meta.shift }

/-- Environment reconstruction (route.ts line 1542). -/
def reconcileEnvironment (environment : Environment) (ats0 : RawATS) : Environment :=
  normalizeEnvironment (ats0.environment.getD environment.toRaw)

/-- Controls: draft controls sanitized (route.ts lines 1546-1549), checklist
derived controls merged in (lines 1600-1603), then procedure derived controls
(lines 1605-1613). -/
def reconcileControls (ats0 : RawATS) (procedureInfluence : ProcedureInfluence)
    (mergedChecklist : ChecklistActionsPayload) : Controls :=
  let controls0 : Controls :=
    { engineering := safeArrayStringsO (ats0.controls.bind RawControls.engineering)
      administrative := safeArrayStringsO (ats0.controls.bind RawControls.administrative)
      ppe := safeArrayStringsO (ats0.controls.bind RawControls.ppe) }
  let controls1 : Controls :=
    { administrative := mergeUnique controls0.administrative
        (safeArrayStrings mergedChecklist.derived_controls.administrative)
      ppe := mergeUnique controls0.ppe (safeArrayStrings mergedChecklist.derived_controls.ppe)
      engineering := mergeUnique controls0.engineering
        (safeArrayStrings mergedChecklist.derived_controls.engineering) }
  let procDerived := procedureInfluence.derived_controls
  { administrative := mergeUnique controls1.administrative
      (safeArrayStrings ((procDerived.filter (fun x => x.level = "administrative")).map
        DerivedControl.control))
    ppe := mergeUnique controls1.ppe
      (safeArrayStrings ((procDerived.filter (fun x => x.level = "ppe")).map
        DerivedControl.control))
    engineering := mergeUnique controls1.engineering
      (safeArrayStrings ((procDerived.filter (fun x => x.level = "engineering")).map
        DerivedControl.control)) }

/-- The deterministic post-processing of the draft (route.ts lines
1534-1736): overwrite seeds, apply the decision guardrails, merge derived
controls, default every optional field, and enforce the completeness
fallbacks.  The checklist enrichment result is passed in (`enriched`); the
call itself is sequenced in `atsPOST`. -/
def reconcile (meta : Meta) (environment : Environment)
    (autoTriggers : List String) (criteria : List String)
    (procedureInfluence : ProcedureInfluence) (normativeRefs : List NormRef)
    (checklistBase : ChecklistActionsPayload) (tasks : Tasks)
    (ats0 : RawATS) (enriched : ChecklistActionsPayload) : ATSDocument :=
  let meta2 := reconcileMeta meta ats0
  let environment2 := reconcileEnvironment environment ats0
  let hazards0 := safeArrayStringsO ats0.hazards
  let steps0 := sanitizeRawSteps (ats0.steps.getD [])
  let dr1 := reconcileTriggerRewrite autoTriggers (draftDecision ats0)
    (draftRationale ats0 autoTriggers)
  let mergedChecklist := finalChecklist checklistBase enriched
  let controls2 := reconcileControls ats0 procedureInfluence mergedChecklist
  let dr2 := reconcileHintRewrite mergedChecklist.decision_hint dr1.1 dr1.2
  let cf := safeArrayStrings mergedChecklist.critical_fails
  let autoTriggers2 := finalAutoTriggers autoTriggers cf
  let normative2 := normalizeNormRefs (ats0.normative_refs.getD (normativeRefs.map NormRef.toRaw))
  let recommendations2 := sanitizeRecommendations (normativeRefs.map NormRef.standard)
    (ats0.recommendations.getD [])
  let hazardFallback := buildFallbackHazards mergedChecklist tasks environment2 autoTriggers2
  let hazards1 := if hazards0.length = 0 then hazardFallback else hazards0
  let hazards2 := completeHazards hazards0 hazardFallback
  let steps3 := completeSteps steps0
    (fun hz => buildFallbackSteps meta2 hz controls2 tasks mergedChecklist) hazards1 hazards2
  { meta := meta2
    environment := environment2
    hazards := hazards2
    controls := controls2
    steps := steps3
    stop_work :=
      { decision := dr2.1
        auto_triggers := autoTriggers2
        criteria := criteria
        rationale := dr2.2 }
    procedure_refs_used := procedureInfluence.applied
    procedure_influence := procedureInfluence
    checklist_actions := mergedChecklist
    normative_refs := normative2
    recommendations := recommendations2 }

/-- The substitute's decision (route.ts line 1518): REVIEW_REQUIRED when the
trigger seed is non-empty, else CONTINUE. -/
def substituteDecision (autoTriggers : List String) : String :=
  if autoTriggers ≠ [] then "REVIEW_REQUIRED" else "CONTINUE"

/-- The substitute document built when `JSON.parse` of the draft fails
(route.ts lines 1510-1529), as the raw object fed into the post-processing. -/
def substituteDraft (meta : Meta) (environment : Environment)
    (autoTriggers criteria : List String) (normativeRefs : List NormRef)
    (checklistBase : ChecklistActionsPayload) : RawATS :=
  { meta := some meta.toRaw
    environment := some environment.toRaw
    hazards := some []
    controls := some { engineering := some [], administrative := some [], ppe := some [] }
    steps := some []
    stop_work := some
      { decision := some (substituteDecision autoTriggers)
        auto_triggers := some autoTriggers
        criteria := some criteria
        rationale := some "Salida no parseable; revisar." }
    checklist_actions := some checklistBase.toRaw
    normative_refs := some (normativeRefs.map NormRef.toRaw)
    recommendations := some [] }

/-! ## The route (route.ts lines 1346-1742) -/

/-- The request body, already shaped: a field of the wrong JSON type behaves
as its absent/default form under the route's coercions.
`lesson_learned_brief` stands for the first non-null candidate of the `??`
chain in `extractLessonLearnedRef`. -/
structure RequestBody where
  jobTitle : Option String := none
  company : Option String := none
  location : Option String := none
  date : Option String := none
  shift : Option String := none
  lifting : Bool := false
  hotWork : Bool := false
  workAtHeight : Bool := false
  environment : RawEnvironment := {}
  normative_refs : List RawNormRef := []
  estrella_format : EstrellaFormat := {}
  lesson_learned_brief : Option RawProcedureRef := none
  procedure_refs : List RawProcedureRef := []
deriving DecidableEq, Inhabited

/-- Process-start configuration: the lesson-learned guardrail switch and
whether an API key for the drafting service is configured. -/
structure Config where
  requireLessonLearnedOnIncidents : Bool := true
  apiKeySet : Bool := true
deriving DecidableEq, Inhabited

structure ErrResponse where
  status : Nat
  error : String
  details : String
deriving DecidableEq, Inhabited

/-- The 400 rejection of route.ts lines 1364-1371. -/
def lessonRequiredError : ErrResponse :=
  { status := 400
    error := "Lección aprendida requerida"
    details := "Marcaste 'Si' en incidentes en trabajos similares. Debes cargar una lección aprendida y procesarla con /api/lesson-learned-brief antes de generar el ATS." }

/-- The catch-all 500 of route.ts lines 1737-1741 (details carry the runtime
message, irrelevant to the claims). -/
def errorGeneratingATS : ErrResponse :=
  { status := 500, error := "Error generando ATS", details := "" }

/-- The high-priority action appended in the flexible mode
(route.ts lines 1379-1386). -/
def flexibleLessonAction : ChecklistAction :=
  { priority := "high"
    category := "administrative"
    action := "Adjuntar y revisar una Lección Aprendida (procesada con /api/lesson-learned-brief) antes de iniciar. Socializar controles y validar aplicabilidad."
    evidence := ["Incidentes = Sí", "Lección aprendida pendiente"] }

/-- The flexible-mode adjustment (route.ts lines 1373-1388): append the
missing entry and the high-priority action, and escalate a CONTINUE hint to
REVIEW_REQUIRED. -/
def flexibleLessonAdjust (base : ChecklistActionsPayload) : ChecklistActionsPayload :=
  { base with
    missing := mergeUnique base.missing
      ["Incidentes en trabajos similares = Sí, pero no se adjuntó lección aprendida (lesson_learned_brief)."]
    actions := base.actions ++ [flexibleLessonAction]
    decision_hint := if base.decision_hint = "CONTINUE" then "REVIEW_REQUIRED"
      else base.decision_hint }

/-- The lesson-learned precondition (route.ts lines 1362-1389): when
`flagged` (incidents = Sí without a usable lesson brief), either reject with
a 400, or — in the flexible mode — apply `flexibleLessonAdjust`. -/
def incidentsGuard (requireLesson : Bool) (flagged : Bool)
    (base : ChecklistActionsPayload) : Except ErrResponse ChecklistActionsPayload :=
  if flagged then
    if requireLesson then .error lessonRequiredError
    else .ok (flexibleLessonAdjust base)
  else .ok base

/-! Request-derived seeds, computed before any external call. -/

def requestTasks (body : RequestBody) : Tasks :=
  { lifting := body.lifting, hotWork := body.hotWork, workAtHeight := body.workAtHeight }

def requestEnvironment (body : RequestBody) : Environment :=
  normalizeEnvironment body.environment

def requestChecklistBase (body : RequestBody) : ChecklistActionsPayload :=
  deriveChecklistDeterministic body.estrella_format body.workAtHeight

def requestLesson (body : RequestBody) : Option ProcedureRef :=
  extractLessonLearnedRef body.lesson_learned_brief

/-- `incidentsFlag === "Si" && !lessonLearnedRef` (route.ts line 1362). -/
def requestIncidentsFlagged (body : RequestBody) : Bool :=
  normalizeYesNo (requestChecklistBase body).snapshot.incidentsReference == "Si" &&
    (requestLesson body).isNone

/-- The combined procedure list with the lesson brief appended, normalized
(route.ts lines 1392-1396). -/
def requestProcedureInfluence (body : RequestBody) : ProcedureInfluence :=
  let combined := body.procedure_refs ++
    (match requestLesson body with | some p => [p.toRaw] | none => [])
  buildProcedureInfluence ((combined.map normalizeProcedureRef).map ProcedureRef.toRaw)

/-- The deterministic trigger seed: environmental triggers plus prefixed
lesson-learned stop-work clauses (route.ts lines 1399-1405). -/
def requestAutoTriggers (body : RequestBody) : List String :=
  let envTriggers := computeStopWorkTriggers (requestEnvironment body) (requestTasks body)
  let lessonStopWork := match requestLesson body with
    | some p => safeArrayStrings p.brief.stop_work
    | none => []
  mergeUnique envTriggers (lessonStopWork.map (fun x => "Lección aprendida: " ++ x))

def requestMeta (body : RequestBody) : Meta :=
  { title := pickString body.jobTitle "ATS"
    company := pickString body.company ""
    location := pickString body.location ""
    date := pickString body.date ""
    shift := pickString body.shift "" }

def requestNormativeRefs (body : RequestBody) : List NormRef :=
  normalizeNormRefs body.normative_refs

/-- The `POST` handler (route.ts lines 1346-1742).  `draftCall` and
`enrichCall` are the two external-service outcomes; a thrown call is caught
by the outer handler and becomes the 500 response.  The enrichment call is
hoisted before the (pure) post-processing it textually interleaves with. -/
def atsPOST (cfg : Config) (body : RequestBody) (draftCall : ServiceCall RawATS)
    (enrichCall : ServiceCall RawChecklistPayload) : Except ErrResponse ATSDocument :=
  match incidentsGuard cfg.requireLessonLearnedOnIncidents (requestIncidentsFlagged body)
      (requestChecklistBase body) with
  | .error e => .error e
  | .ok checklistBase =>
    match draftCall with
    | .throws => .error errorGeneratingATS
    | .returns parsed =>
      let ats0 := match parsed with
        | some a => a
        | none => substituteDraft (requestMeta body) (requestEnvironment body)
            (requestAutoTriggers body) generalCriteria (requestNormativeRefs body)
            checklistBase
      match enrichChecklistWithAI cfg.apiKeySet checklistBase enrichCall with
      | .error _ => .error errorGeneratingATS
      | .ok enriched =>
        .ok (reconcile (requestMeta body) (requestEnvironment body)
          (requestAutoTriggers body) generalCriteria (requestProcedureInfluence body)
          (requestNormativeRefs body) checklistBase (requestTasks body) ats0 enriched)

/-! ## Supporting lemmas about the reconciliation pipeline -/

/-- The severity order on decision values. -/
def severityRank (d : String) : Nat :=
  if d = "CONTINUE" then 0 else if d = "REVIEW_REQUIRED" then 1 else 2

theorem reconcileTriggerRewrite_of_ne_nil (t : List String) (d r : String) (ht : t ≠ []) :
    (reconcileTriggerRewrite t d r).1 = if d = "CONTINUE" then "REVIEW_REQUIRED" else d := by
  by_cases hd : d = "CONTINUE" <;> simp [reconcileTriggerRewrite, ht, hd]

theorem reconcileTriggerRewrite_ne_continue (t : List String) (d r : String) (ht : t ≠ []) :
    (reconcileTriggerRewrite t d r).1 ≠ "CONTINUE" := by
  rw [reconcileTriggerRewrite_of_ne_nil t d r ht]
  by_cases hd : d = "CONTINUE" <;> simp [hd]

theorem reconcileHintRewrite_cases (hint d r : String) :
    (reconcileHintRewrite hint d r).1 = "STOP" ∨
    (reconcileHintRewrite hint d r).1 = "REVIEW_REQUIRED" ∨
    (reconcileHintRewrite hint d r).1 = d := by
  unfold reconcileHintRewrite
  split
  · simp
  · split
    · simp
    · simp

theorem reconcileHintRewrite_stop (hint d r : String) (h : hint = "STOP") :
    (reconcileHintRewrite hint d r).1 = "STOP" := by
  subst h
  unfold reconcileHintRewrite
  by_cases hd : d = "STOP"
  · simp [hd]
  · simp [hd]

theorem reconcileHintRewrite_ne_continue (hint d r : String) (hd : d ≠ "CONTINUE") :
    (reconcileHintRewrite hint d r).1 ≠ "CONTINUE" := by
  rcases reconcileHintRewrite_cases hint d r with h | h | h <;> rw [h]
  · simp
  · simp
  · exact hd

theorem finalChecklist_hint_stop (cb e : ChecklistActionsPayload)
    (h : cb.critical_fails ≠ []) : (finalChecklist cb e).decision_hint = "STOP" := by
  unfold finalChecklist
  simp [h]

/-- The stop-work decision of the reconciled document, as the composition of
the two rewrites. -/
theorem reconcile_decision_eq (m : Meta) (env : Environment) (t gc : List String)
    (pi : ProcedureInfluence) (nr : List NormRef) (cb : ChecklistActionsPayload)
    (tk : Tasks) (ats0 : RawATS) (e : ChecklistActionsPayload) :
    (reconcile m env t gc pi nr cb tk ats0 e).stop_work.decision =
      (reconcileHintRewrite (finalChecklist cb e).decision_hint
        (reconcileTriggerRewrite t (draftDecision ats0) (draftRationale ats0 t)).1
        (reconcileTriggerRewrite t (draftDecision ats0) (draftRationale ats0 t)).2).1 := rfl

theorem reconcile_checklist_eq (m : Meta) (env : Environment) (t gc : List String)
    (pi : ProcedureInfluence) (nr : List NormRef) (cb : ChecklistActionsPayload)
    (tk : Tasks) (ats0 : RawATS) (e : ChecklistActionsPayload) :
    (reconcile m env t gc pi nr cb tk ats0 e).checklist_actions = finalChecklist cb e := rfl

theorem reconcile_criteria_eq (m : Meta) (env : Environment) (t gc : List String)
    (pi : ProcedureInfluence) (nr : List NormRef) (cb : ChecklistActionsPayload)
    (tk : Tasks) (ats0 : RawATS) (e : ChecklistActionsPayload) :
    (reconcile m env t gc pi nr cb tk ats0 e).stop_work.criteria = gc := rfl

theorem reconcile_auto_triggers_eq (m : Meta) (env : Environment) (t gc : List String)
    (pi : ProcedureInfluence) (nr : List NormRef) (cb : ChecklistActionsPayload)
    (tk : Tasks) (ats0 : RawATS) (e : ChecklistActionsPayload) :
    (reconcile m env t gc pi nr cb tk ats0 e).stop_work.auto_triggers =
      finalAutoTriggers t (safeArrayStrings (finalChecklist cb e).critical_fails) := rfl

theorem incidentsGuard_ok_critical_fails (r f : Bool) (b b' : ChecklistActionsPayload)
    (h : incidentsGuard r f b = .ok b') : b'.critical_fails = b.critical_fails := by
  unfold incidentsGuard at h
  split at h
  · split at h
    · cases h
    · cases h; rfl
  · cases h; rfl

theorem enrich_ok_of_ne_throws (k : Bool) (b : ChecklistActionsPayload)
    (c : ServiceCall RawChecklistPayload) (hc : c ≠ ServiceCall.throws) :
    ∃ e, enrichChecklistWithAI k b c = .ok e := by
  unfold enrichChecklistWithAI
  split
  · exact ⟨b, rfl⟩
  · split
    · exact ⟨b, rfl⟩
    · match c with
      | .throws => exact absurd rfl hc
      | .returns none => exact ⟨b, rfl⟩
      | .returns (some p) => exact ⟨_, rfl⟩

theorem incidentsGuard_ok_of (r f : Bool) (b : ChecklistActionsPayload)
    (h : ¬(f = true ∧ r = true)) : ∃ b2, incidentsGuard r f b = .ok b2 := by
  unfold incidentsGuard
  cases f with
  | false => exact ⟨b, rfl⟩
  | true =>
    cases r with
    | false => exact ⟨flexibleLessonAdjust b, rfl⟩
    | true => exact absurd ⟨rfl, rfl⟩ h

theorem reconcileTriggerRewrite_valid (t : List String) (d r : String)
    (hd : d ∈ ["STOP", "CONTINUE", "REVIEW_REQUIRED"]) :
    (reconcileTriggerRewrite t d r).1 ∈ (["STOP", "CONTINUE", "REVIEW_REQUIRED"] : List String) := by
  by_cases h1 : t ≠ [] ∧ d = "CONTINUE"
  · have hres : (reconcileTriggerRewrite t d r).1 = "REVIEW_REQUIRED" := by
      rw [reconcileTriggerRewrite_of_ne_nil t d r h1.1, if_pos h1.2]
    rw [hres]
    simp
  · unfold reconcileTriggerRewrite
    rw [if_neg h1]
    dsimp only
    split
    · simp
    · exact hd

theorem reconcileHintRewrite_valid (hint d r : String)
    (hd : d ∈ ["STOP", "CONTINUE", "REVIEW_REQUIRED"]) :
    (reconcileHintRewrite hint d r).1 ∈ (["STOP", "CONTINUE", "REVIEW_REQUIRED"] : List String) := by
  rcases reconcileHintRewrite_cases hint d r with h | h | h <;> rw [h]
  · simp
  · simp
  · exact hd

/-- Every successful run of the route is the reconciliation of some guard
outcome, draft object and enrichment outcome. -/
theorem atsPOST_ok_inv (cfg : Config) (body : RequestBody) (dc : ServiceCall RawATS)
    (ec : ServiceCall RawChecklistPayload) (doc : ATSDocument)
    (h : atsPOST cfg body dc ec = .ok doc) :
    ∃ cb ats0 enriched,
      incidentsGuard cfg.requireLessonLearnedOnIncidents (requestIncidentsFlagged body)
        (requestChecklistBase body) = .ok cb ∧
      enrichChecklistWithAI cfg.apiKeySet cb ec = .ok enriched ∧
      doc = reconcile (requestMeta body) (requestEnvironment body) (requestAutoTriggers body)
        generalCriteria (requestProcedureInfluence body) (requestNormativeRefs body)
        cb (requestTasks body) ats0 enriched := by
  unfold atsPOST at h
  split at h
  · cases h
  · rename_i cb hg
    split at h
    · cases h
    · rename_i parsed
      cases parsed with
      | none =>
        dsimp only at h
        split at h
        · cases h
        · rename_i enriched hen
          refine ⟨cb, substituteDraft (requestMeta body) (requestEnvironment body)
            (requestAutoTriggers body) generalCriteria (requestNormativeRefs body) cb,
            enriched, hg, hen, ?_⟩
          cases h
          rfl
      | some a =>
        dsimp only at h
        split at h
        · cases h
        · rename_i enriched hen
          refine ⟨cb, a, enriched, hg, hen, ?_⟩
          cases h
          rfl

theorem hazardCond_clean (c : Prop) [Decidable c] (x : String) (h : List String)
    (hh : ∀ s ∈ h, cleanS s) : ∀ s ∈ hazardCond c x h, cleanS s := by
  unfold hazardCond
  split
  · exact (mergeUnique_clean h [x]).1
  · exact hh

theorem buildFallbackHazards_clean (ck : ChecklistActionsPayload) (tk : Tasks)
    (env : Environment) (t : List String) :
    ∀ s ∈ buildFallbackHazards ck tk env t, cleanS s := by
  unfold buildFallbackHazards
  dsimp only
  split
  · intro s hs
    simp only [List.mem_singleton] at hs
    subst hs
    exact ⟨by decide, by decide⟩
  · apply hazardCond_clean
    apply hazardCond_clean
    apply hazardCond_clean
    apply hazardCond_clean
    apply hazardCond_clean
    apply hazardCond_clean
    apply hazardCond_clean
    apply hazardCond_clean
    apply hazardCond_clean
    exact (mergeUnique_clean _ _).1

theorem buildFallbackHazards_ne_nil (ck : ChecklistActionsPayload) (tk : Tasks)
    (env : Environment) (t : List String) :
    buildFallbackHazards ck tk env t ≠ [] := by
  unfold buildFallbackHazards
  dsimp only
  split
  · simp
  · rename_i hlen
    intro hnil
    rw [hnil] at hlen
    simp at hlen

theorem completeHazards_ne_nil (hz0 fb : List String)
    (hz0c : ∀ s ∈ hz0, cleanS s) (fbc : ∀ s ∈ fb, cleanS s) (fbne : fb ≠ []) :
    completeHazards hz0 fb ≠ [] := by
  unfold completeHazards
  dsimp only
  have h1ne : (if hz0.length = 0 then fb else hz0) ≠ [] := by
    split
    · exact fbne
    · rename_i hlen
      intro hnil
      rw [hnil] at hlen
      simp at hlen
  have h1c : ∀ s ∈ (if hz0.length = 0 then fb else hz0), cleanS s := by
    split
    · exact fbc
    · exact hz0c
  revert h1ne h1c
  generalize (if hz0.length = 0 then fb else hz0) = h1
  intro h1ne h1c
  split
  · rcases h1 with _ | ⟨x, xs⟩
    · exact absurd rfl h1ne
    · have hxc : cleanS x := h1c x (List.mem_cons_self x xs)
      have hmne := mergeUnique_ne_nil x xs fb hxc
      rcases hm : mergeUnique (x :: xs) fb with _ | ⟨y, ys⟩
      · exact absurd hm hmne
      · simp
  · exact h1ne

theorem buildFallbackSteps_length (m : Meta) (hz : List String) (c : Controls)
    (tk : Tasks) (ck : ChecklistActionsPayload) :
    5 ≤ (buildFallbackSteps m hz c tk ck).length := by
  rcases tk with ⟨l, h, w⟩
  cases l <;> cases h <;> cases w <;> simp [buildFallbackSteps]

theorem completeSteps_len (steps0 : List StepEntry) (fb : List String → List StepEntry)
    (h1 h2 : List String) (hfb : ∀ hz, 5 ≤ (fb hz).length) :
    4 ≤ (completeSteps steps0 fb h1 h2).length := by
  unfold completeSteps
  dsimp only
  rw [List.length_map]
  have hf1 := hfb h1
  have hf2 := hfb h2
  split <;> split <;> omega

set_option maxHeartbeats 1000000 in
theorem reconcile_hazards_eq (m : Meta) (env : Environment) (t gc : List String)
    (pi : ProcedureInfluence) (nr : List NormRef) (cb : ChecklistActionsPayload)
    (tk : Tasks) (ats0 : RawATS) (e : ChecklistActionsPayload) :
    (reconcile m env t gc pi nr cb tk ats0 e).hazards =
      completeHazards (safeArrayStringsO ats0.hazards)
        (buildFallbackHazards (finalChecklist cb e) tk (reconcileEnvironment env ats0)
          (finalAutoTriggers t (safeArrayStrings (finalChecklist cb e).critical_fails))) := rfl

theorem reconcile_hazards_ne_nil (m : Meta) (env : Environment) (t gc : List String)
    (pi : ProcedureInfluence) (nr : List NormRef) (cb : ChecklistActionsPayload)
    (tk : Tasks) (ats0 : RawATS) (e : ChecklistActionsPayload) :
    (reconcile m env t gc pi nr cb tk ats0 e).hazards ≠ [] := by
  rw [reconcile_hazards_eq]
  exact completeHazards_ne_nil _ _ (safeArrayStringsO_clean _)
    (buildFallbackHazards_clean _ _ _ _) (buildFallbackHazards_ne_nil _ _ _ _)

set_option maxHeartbeats 1000000 in
theorem reconcile_steps_eq (m : Meta) (env : Environment) (t gc : List String)
    (pi : ProcedureInfluence) (nr : List NormRef) (cb : ChecklistActionsPayload)
    (tk : Tasks) (ats0 : RawATS) (e : ChecklistActionsPayload) :
    (reconcile m env t gc pi nr cb tk ats0 e).steps =
      completeSteps (sanitizeRawSteps (ats0.steps.getD []))
        (fun hz => buildFallbackSteps (reconcileMeta m ats0) hz
          (reconcileControls ats0 pi (finalChecklist cb e)) tk (finalChecklist cb e))
        (if (safeArrayStringsO ats0.hazards).length = 0 then
          buildFallbackHazards (finalChecklist cb e) tk (reconcileEnvironment env ats0)
            (finalAutoTriggers t (safeArrayStrings (finalChecklist cb e).critical_fails))
         else safeArrayStringsO ats0.hazards)
        (completeHazards (safeArrayStringsO ats0.hazards)
          (buildFallbackHazards (finalChecklist cb e) tk (reconcileEnvironment env ats0)
            (finalAutoTriggers t (safeArrayStrings (finalChecklist cb e).critical_fails)))) := rfl

theorem reconcile_steps_len (m : Meta) (env : Environment) (t gc : List String)
    (pi : ProcedureInfluence) (nr : List NormRef) (cb : ChecklistActionsPayload)
    (tk : Tasks) (ats0 : RawATS) (e : ChecklistActionsPayload) :
    4 ≤ (reconcile m env t gc pi nr cb tk ats0 e).steps.length := by
  rw [reconcile_steps_eq]
  exact completeSteps_len _ _ _ _ (fun _ => buildFallbackSteps_length _ _ _ _ _)

/-! ## Claim C3: monotone decision severity through reconciliation -/

/-- Claim C3: viewing reconciliation as the trigger rewrite followed by the
checklist-hint rewrite on `stop_work.decision`, the decision is monotone
non-decreasing in the severity order CONTINUE < REVIEW_REQUIRED < STOP; a
hint of STOP forces STOP, a hint of REVIEW_REQUIRED only raises CONTINUE to
REVIEW_REQUIRED, and a decision of STOP is never lowered by either step. -/
theorem c3_decision_monotone (t : List String) (hint d r : String)
    (hd : d ∈ ["CONTINUE", "REVIEW_REQUIRED", "STOP"]) :
    severityRank d ≤ severityRank (reconcileTriggerRewrite t d r).1 ∧
    severityRank d ≤ severityRank (reconcileHintRewrite hint d r).1 ∧
    (hint = "STOP" → (reconcileHintRewrite hint d r).1 = "STOP") ∧
    (hint = "REVIEW_REQUIRED" →
      (reconcileHintRewrite hint d r).1 = if d = "CONTINUE" then "REVIEW_REQUIRED" else d) ∧
    (reconcileTriggerRewrite t "STOP" r).1 = "STOP" ∧
    (reconcileHintRewrite hint "STOP" r).1 = "STOP" := by
  have hstop1 : (reconcileTriggerRewrite t "STOP" r).1 = "STOP" := by
    by_cases ht : t = [] <;> simp [reconcileTriggerRewrite, ht]
  have hstop2 : (reconcileHintRewrite hint "STOP" r).1 = "STOP" := by
    unfold reconcileHintRewrite
    by_cases h1 : hint = "STOP" <;> by_cases h2 : hint = "REVIEW_REQUIRED" <;>
      simp [h1, h2]
  simp only [List.mem_cons, List.not_mem_nil, or_false] at hd
  refine ⟨?_, ?_, fun h => reconcileHintRewrite_stop hint d r h, ?_, hstop1, hstop2⟩
  · rcases hd with rfl | rfl | rfl
    · simp [severityRank]
    · by_cases ht : t = [] <;> simp [reconcileTriggerRewrite, ht, severityRank]
    · rw [hstop1]
  · rcases hd with rfl | rfl | rfl
    · simp [severityRank]
    · by_cases h1 : hint = "STOP" <;> by_cases h2 : hint = "REVIEW_REQUIRED" <;>
        simp [reconcileHintRewrite, h1, h2, severityRank]
    · rw [hstop2]
  · intro h
    subst h
    by_cases hc : d = "CONTINUE" <;> simp [reconcileHintRewrite, hc]

/-- Witness for C3 at a concrete instance. -/
theorem c3_decision_monotone_witness :
    severityRank "CONTINUE" ≤ severityRank (reconcileTriggerRewrite ["x"] "CONTINUE" "").1 ∧
    (reconcileHintRewrite "STOP" "CONTINUE" "").1 = "STOP" :=
  ⟨(c3_decision_monotone ["x"] "STOP" "CONTINUE" "" (by decide)).1,
   (c3_decision_monotone ["x"] "STOP" "CONTINUE" "" (by decide)).2.2.1 rfl⟩

/-! ## Claim C6: the checklist evaluator's decision hint -/

theorem decisionHint_spec (cf missing : List String) (actions : List ChecklistAction) :
    ((if cf ≠ [] then "STOP"
      else if missing ≠ [] ∨ actions.any (fun a => a.priority == "high" || a.priority == "medium")
      then "REVIEW_REQUIRED" else "CONTINUE") = "STOP" ↔ cf ≠ []) ∧
    ((if cf ≠ [] then "STOP"
      else if missing ≠ [] ∨ actions.any (fun a => a.priority == "high" || a.priority == "medium")
      then "REVIEW_REQUIRED" else "CONTINUE") = "CONTINUE" →
      missing = [] ∧ ∀ a ∈ actions, a.priority ≠ "medium" ∧ a.priority ≠ "high") := by
  by_cases h1 : cf = []
  · rw [if_neg (show ¬ cf ≠ [] from fun hc => hc h1)]
    by_cases h2 : missing ≠ [] ∨ actions.any (fun a => a.priority == "high" || a.priority == "medium")
    · rw [if_pos h2]
      exact ⟨⟨fun h => absurd h (by decide), fun h => absurd h1 h⟩,
             fun h => absurd h (by decide)⟩
    · rw [if_neg h2]
      refine ⟨⟨fun h => absurd h (by decide), fun h => absurd h1 h⟩, fun _ => ?_⟩
      rw [not_or] at h2
      obtain ⟨hm, ha⟩ := h2
      refine ⟨not_not.mp hm, ?_⟩
      intro a hma
      have hfa : ¬ (actions.any (fun a => a.priority == "high" || a.priority == "medium")
          = true) := ha
      simp only [List.any_eq_true, not_exists, not_and, Bool.or_eq_true, beq_iff_eq,
        not_or] at hfa
      have hthis := hfa a hma
      exact ⟨hthis.2, hthis.1⟩
  · rw [if_pos h1]
    exact ⟨⟨fun _ => h1, fun _ => rfl⟩, fun h => absurd h (by decide)⟩

set_option maxHeartbeats 800000 in
theorem derive_hint_eq (e : EstrellaFormat) (w : Bool) :
    (deriveChecklistDeterministic e w).decision_hint =
      (if (deriveChecklistDeterministic e w).critical_fails ≠ [] then "STOP"
       else if (deriveChecklistDeterministic e w).missing ≠ [] ∨
           (deriveChecklistDeterministic e w).actions.any
             (fun a => a.priority == "high" || a.priority == "medium")
       then "REVIEW_REQUIRED" else "CONTINUE") := rfl

/-- The all-negative supervisor scenario of claim C6. -/
def allNoEstrella : EstrellaFormat :=
  { incidentsReference := "No", otherCompanies := "No",
    emergencies := ["Emergencia médica"], lifeSavingRules := ["Acuerdo de Vida"],
    elaborationDate := some "2025-01-01", executionDate := some "2025-01-02",
    supStagesClarity := some "NO", supHazardsControlled := some "NO",
    supIsolationConfirmed := some "NO", supCommsAgreed := some "NO",
    supToolsOk := some "NO" }

/-- Claim C6: for every checklist state and task flags, the deterministic
evaluator returns `decision_hint = STOP` iff `critical_fails` is non-empty,
and returns CONTINUE only when `missing` is empty and no synthesized action
has medium or high priority; with all five supervisor items answered NO it
yields exactly 5 critical fails, 5 critical-priority actions, and STOP. -/
theorem c6_checklist_decision_hint (e : EstrellaFormat) (w : Bool) :
    ((deriveChecklistDeterministic e w).decision_hint = "STOP" ↔
      (deriveChecklistDeterministic e w).critical_fails ≠ []) ∧
    ((deriveChecklistDeterministic e w).decision_hint = "CONTINUE" →
      (deriveChecklistDeterministic e w).missing = [] ∧
      ∀ a ∈ (deriveChecklistDeterministic e w).actions,
        a.priority ≠ "medium" ∧ a.priority ≠ "high") ∧
    ((deriveChecklistDeterministic allNoEstrella w).critical_fails.length = 5 ∧
     ((deriveChecklistDeterministic allNoEstrella w).actions.filter
       (fun a => a.priority == "critical")).length = 5 ∧
     (deriveChecklistDeterministic allNoEstrella w).decision_hint = "STOP") := by
  obtain ⟨hs1, hs2⟩ := decisionHint_spec (deriveChecklistDeterministic e w).critical_fails
    (deriveChecklistDeterministic e w).missing (deriveChecklistDeterministic e w).actions
  refine ⟨?_, ?_, ?_⟩
  · rw [derive_hint_eq]
    exact hs1
  · rw [derive_hint_eq]
    exact hs2
  · cases w <;> exact ⟨by decide, by decide, by decide⟩

/-- Witness for C6: the all-NO scenario yields the STOP hint. -/
theorem c6_checklist_decision_hint_witness :
    (deriveChecklistDeterministic allNoEstrella false).decision_hint = "STOP" :=
  ((c6_checklist_decision_hint allNoEstrella false).1).mpr (by decide)

/-! ## Claim C7: derived-control deduplication -/

/-- Claim C7: the aggregator deduplicates derived controls by
(level, control text, source code-or-title): output keys are pairwise
distinct, re-running the dedup pass over the output is the identity (no
growth on repeated aggregation), and every collected control's key survives
into the output — so identical text from one source collapses to one entry
while the same text from two different sources keeps both entries. -/
theorem c7_derived_controls_dedup (refs : List RawProcedureRef) :
    (((buildProcedureInfluence refs).derived_controls.map controlKey).Nodup) ∧
    (dedupDerivedControls ((buildProcedureInfluence refs).derived_controls) =
      (buildProcedureInfluence refs).derived_controls) ∧
    (∀ k ∈ (derivedControlsAll (appliedRefs refs)).map controlKey,
      k ∈ (buildProcedureInfluence refs).derived_controls.map controlKey) := by
  have hdc : (buildProcedureInfluence refs).derived_controls =
      dedupDerivedControls (derivedControlsAll (appliedRefs refs)) := rfl
  have hnodup := (dedupDerivedControlsAux_nodup (derivedControlsAll (appliedRefs refs)) []).1
  refine ⟨by rw [hdc]; exact hnodup, ?_, ?_⟩
  · rw [hdc]
    exact dedupDerivedControlsAux_fixed _ [] hnodup (by intro k _; simp)
  · intro k hk
    rw [hdc]
    rcases dedupDerivedControlsAux_complete (derivedControlsAll (appliedRefs refs)) [] k hk with h | h
    · simp at h
    · exact h

/-- Two briefs from different sources carrying the identical control text. -/
def c7BriefA : RawProcedureRef :=
  { title := some "Procedimiento A", code := some "P1",
    brief := some { critical_controls := some { administrative := some ["Control X"] } } }

def c7BriefB : RawProcedureRef :=
  { title := some "Procedimiento B", code := some "P2",
    brief := some { critical_controls := some { administrative := some ["Control X"] } } }

/-- Witness for C7: identical control text from two sources yields two
entries with distinct provenance, and the output keys are distinct. -/
theorem c7_derived_controls_dedup_witness :
    ((buildProcedureInfluence [c7BriefA, c7BriefB]).derived_controls.map
      (fun x => x.source.code) = ["P1", "P2"]) ∧
    ((buildProcedureInfluence [c7BriefA, c7BriefB]).derived_controls.map
      DerivedControl.control = ["Control X", "Control X"]) ∧
    ((buildProcedureInfluence [c7BriefA, c7BriefA]).derived_controls.map
      DerivedControl.control = ["Control X"]) ∧
    (((buildProcedureInfluence [c7BriefA, c7BriefB]).derived_controls.map controlKey).Nodup) :=
  ⟨by decide, by decide, by decide, (c7_derived_controls_dedup [c7BriefA, c7BriefB]).1⟩

/-! ## Claim C10: supervisor answers vs. yes/no normalization -/

/-- A checklist state with every field answered except the quantified
`stagesClarity` slot. -/
def c10Estrella (v : Option String) : EstrellaFormat :=
  { incidentsReference := "No", otherCompanies := "No",
    emergencies := ["Emergencia médica"], lifeSavingRules := ["Acuerdo de Vida"],
    elaborationDate := some "2025-01-01", executionDate := some "2025-01-02",
    supStagesClarity := v, supHazardsControlled := some "SI",
    supIsolationConfirmed := some "SI", supCommsAgreed := some "SI",
    supToolsOk := some "SI" }

theorem c10_pick_eq (v : Option String) :
    deriveChecklistDeterministic (c10Estrella v) false =
      deriveChecklistDeterministic (c10Estrella (some (pickString v ""))) false := by
  cases v <;> rfl

theorem c10_cf_eq (s : String) :
    (deriveChecklistDeterministic (c10Estrella (some s)) false).critical_fails =
      (if s = "NO" then ["Supervisor marcó NO: Claridad de etapas."] else []) := by
  by_cases h : s = "NO"
  · subst h
    decide
  · rw [if_neg h]
    by_cases h0 : s = ""
    · subst h0
      decide
    · have e1 : normalizeYesNo "No" = "No" := by decide
      simp only [deriveChecklistDeterministic, c10Estrella, supMap, List.foldr,
        pickString, Option.getD]
      simp [h, h0, e1]

theorem c10_missing_eq (s : String) :
    (deriveChecklistDeterministic (c10Estrella (some s)) false).missing =
      (if s = "" then ["Falta selección en verificación del supervisor: Claridad de etapas."]
       else []) := by
  by_cases h0 : s = ""
  · subst h0
    decide
  · rw [if_neg h0]
    have e1 : normalizeYesNo "No" = "No" := by decide
    simp only [deriveChecklistDeterministic, c10Estrella, supMap, List.foldr,
      pickString, Option.getD]
    simp [h0, e1]

/-- Claim C10: a supervisor item is a critical fail exactly when its answer
is the string `"NO"` and unanswered exactly when the coerced answer is empty;
any other non-empty answer (`"No"`, `"no"`, `"SI"`) produces neither — while
the incidents / other-companies answers go through the case-insensitive
`normalizeYesNo` (accepting `"si"`, `"sí"`, `"yes"`, `"true"`, `"1"`, …). -/
theorem c10_supervisor_answer_classification (v : Option String) :
    ("Supervisor marcó NO: Claridad de etapas." ∈
        (deriveChecklistDeterministic (c10Estrella v) false).critical_fails ↔
      pickString v "" = "NO") ∧
    ("Falta selección en verificación del supervisor: Claridad de etapas." ∈
        (deriveChecklistDeterministic (c10Estrella v) false).missing ↔
      pickString v "" = "") ∧
    (pickString v "" ≠ "" → pickString v "" ≠ "NO" →
      (deriveChecklistDeterministic (c10Estrella v) false).critical_fails = [] ∧
      (deriveChecklistDeterministic (c10Estrella v) false).missing = []) ∧
    (deriveChecklistDeterministic (c10Estrella (some "No")) false).critical_fails = [] ∧
    (deriveChecklistDeterministic (c10Estrella (some "no")) false).critical_fails = [] ∧
    (deriveChecklistDeterministic (c10Estrella (some "SI")) false).critical_fails = [] ∧
    (deriveChecklistDeterministic (c10Estrella (some "No")) false).missing = [] ∧
    (deriveChecklistDeterministic { incidentsReference := "sí" }
      false).snapshot.incidentsReference = "Si" ∧
    normalizeYesNo "SI" = "Si" ∧ normalizeYesNo "sí" = "Si" ∧ normalizeYesNo "si" = "Si" ∧
    normalizeYesNo "yes" = "Si" ∧ normalizeYesNo "true" = "Si" ∧ normalizeYesNo "1" = "Si" ∧
    normalizeYesNo "nO" = "No" ∧ normalizeYesNo "FALSE" = "No" := by
  rw [c10_pick_eq]
  refine ⟨?_, ?_, ?_, by decide, by decide, by decide, by decide, by decide, by decide,
    by decide, by decide, by decide, by decide, by decide, by decide, by decide⟩
  · rw [c10_cf_eq]
    by_cases h : pickString v "" = "NO" <;> simp [h]
  · rw [c10_missing_eq]
    by_cases h : pickString v "" = "" <;> simp [h]
  · intro h0 hno
    rw [c10_cf_eq, c10_missing_eq, if_neg hno, if_neg h0]
    exact ⟨rfl, rfl⟩

/-- Witness for C10 at the answer `"NO"`. -/
theorem c10_supervisor_answer_classification_witness :
    "Supervisor marcó NO: Claridad de etapas." ∈
      (deriveChecklistDeterministic (c10Estrella (some "NO")) false).critical_fails :=
  ((c10_supervisor_answer_classification (some "NO")).1).mpr (by decide)

theorem draftDecision_substitute (m : Meta) (env : Environment) (t gc : List String)
    (nr : List NormRef) (cb : ChecklistActionsPayload) :
    draftDecision (substituteDraft m env t gc nr cb) = substituteDecision t := rfl

theorem substituteDecision_valid (t : List String) :
    substituteDecision t ∈ (["STOP", "CONTINUE", "REVIEW_REQUIRED"] : List String) := by
  unfold substituteDecision
  split
  · simp
  · simp

/-- The error component of a route outcome, for stating concrete runs. -/
def errOf (r : Except ErrResponse ATSDocument) : Option ErrResponse :=
  match r with
  | .error e => some e
  | .ok _ => none

/-- A request whose draft call resolves (parseable or not) succeeds whenever
the lesson-learned precondition passes and the enrichment call does not
throw. -/
theorem atsPOST_returns_ok (cfg : Config) (body : RequestBody) (parsed : Option RawATS)
    (ec : ServiceCall RawChecklistPayload)
    (hguard : ¬(requestIncidentsFlagged body = true ∧
      cfg.requireLessonLearnedOnIncidents = true))
    (hec : ec ≠ ServiceCall.throws) :
    ∃ doc, atsPOST cfg body (ServiceCall.returns parsed) ec = Except.ok doc := by
  obtain ⟨cb, hg⟩ := incidentsGuard_ok_of cfg.requireLessonLearnedOnIncidents
    (requestIncidentsFlagged body) (requestChecklistBase body) hguard
  obtain ⟨en, hen⟩ := enrich_ok_of_ne_throws cfg.apiKeySet cb ec hec
  unfold atsPOST
  rw [hg]
  cases parsed <;> (dsimp only; rw [hen]; exact ⟨_, rfl⟩)

/-! ## Claims C1 and C2: the stop-work / checklist guardrails -/

/-- A fully-answered checklist state with no critical fail and no missing
entry, but one medium-priority action (no emergency scenario selected). -/
def cexEstrella : EstrellaFormat :=
  { incidentsReference := "No", otherCompanies := "No",
    lifeSavingRules := ["Acuerdo de Vida"],
    elaborationDate := some "2025-01-01", executionDate := some "2025-01-02",
    supStagesClarity := some "SI", supHazardsControlled := some "SI",
    supIsolationConfirmed := some "SI", supCommsAgreed := some "SI",
    supToolsOk := some "SI" }

def cexBody : RequestBody := { estrella_format := cexEstrella }

/-- A parsed draft: three hazards, four steps, decision CONTINUE. -/
def cexDraft : RawATS :=
  { hazards := some ["a", "b", "c"],
    steps := some [{ step := some "s1" }, { step := some "s2" },
                   { step := some "s3" }, { step := some "s4" }],
    stop_work := some { decision := some "CONTINUE", rationale := some "r" } }

/-- An enrichment response inventing a critical fail while keeping the
CONTINUE hint. -/
def cexEnrich : RawChecklistPayload :=
  { decision_hint := some "CONTINUE", missing := some [],
    critical_fails := some ["Fallo reportado por IA"], actions := some [] }

/-- Counterexample to claim C1 as stated: with an empty deterministic trigger
seed, a checklist-enrichment response that invents a critical fail makes the
final `auto_triggers` non-empty while the final decision stays CONTINUE. -/
theorem c1_continue_with_triggers_counterexample :
    (atsPOST {} cexBody (ServiceCall.returns (some cexDraft))
        (ServiceCall.returns (some cexEnrich))).toOption.map
      (fun d => (d.stop_work.decision, d.stop_work.auto_triggers)) =
      some ("CONTINUE", ["Checklist: Fallo reportado por IA"]) := by decide

/-- Claim C1 (amended): whenever the deterministic trigger seed is non-empty,
the final `stop_work.decision` is not CONTINUE, for every draft and every
enrichment outcome; in particular a draft decision of CONTINUE is rewritten.
(The unamended claim — over the final `auto_triggers` list, which may also
contain enrichment-injected checklist entries — is refuted by
`c1_continue_with_triggers_counterexample`.) -/
theorem c1_seed_triggers_forbid_continue (cfg : Config) (body : RequestBody)
    (dc : ServiceCall RawATS) (ec : ServiceCall RawChecklistPayload) (doc : ATSDocument)
    (h : atsPOST cfg body dc ec = .ok doc)
    (ht : requestAutoTriggers body ≠ []) :
    doc.stop_work.decision ≠ "CONTINUE" := by
  obtain ⟨cb, ats0, en, _, _, hdoc⟩ := atsPOST_ok_inv cfg body dc ec doc h
  subst hdoc
  rw [reconcile_decision_eq]
  exact reconcileHintRewrite_ne_continue _ _ _
    (reconcileTriggerRewrite_ne_continue _ _ _ ht)

/-- A request whose environment fires the storm/lifting trigger. -/
def c1Body : RequestBody :=
  { lifting := true, environment := { weather := some "Tormenta eléctrica" },
    estrella_format := cexEstrella }

/-- Witness for the amended C1 at a concrete storm/lifting request. -/
theorem c1_seed_triggers_forbid_continue_witness :
    requestAutoTriggers c1Body ≠ [] ∧
    ∃ doc, atsPOST { apiKeySet := false } c1Body (ServiceCall.returns (some cexDraft))
        (ServiceCall.returns none) = Except.ok doc ∧
      doc.stop_work.decision ≠ "CONTINUE" := by
  refine ⟨by decide, ?_⟩
  obtain ⟨doc, hdoc⟩ := atsPOST_returns_ok { apiKeySet := false } c1Body (some cexDraft)
    (ServiceCall.returns none) (by decide) (by decide)
  exact ⟨doc, hdoc, c1_seed_triggers_forbid_continue _ _ _ _ _ hdoc (by decide)⟩

/-- Counterexample to claim C2 as stated: the same run carries a non-empty
final `checklist_actions.critical_fails` while both the decision hint and the
stop-work decision remain CONTINUE. -/
theorem c2_critical_fails_continue_counterexample :
    (atsPOST {} cexBody (ServiceCall.returns (some cexDraft))
        (ServiceCall.returns (some cexEnrich))).toOption.map
      (fun d => (d.checklist_actions.critical_fails, d.checklist_actions.decision_hint,
        d.stop_work.decision)) =
      some (["Fallo reportado por IA"], "CONTINUE", "CONTINUE") := by decide

/-- Claim C2 (amended): whenever the deterministic checklist seed's
`critical_fails` is non-empty, the final `checklist_actions.decision_hint`
and the final `stop_work.decision` are both STOP, for every draft and every
enrichment outcome.  (Stated over the final document's own `critical_fails`
list — which the enrichment response controls — the claim is refuted by
`c2_critical_fails_continue_counterexample`.) -/
theorem c2_seed_critical_fails_force_stop (cfg : Config) (body : RequestBody)
    (dc : ServiceCall RawATS) (ec : ServiceCall RawChecklistPayload) (doc : ATSDocument)
    (h : atsPOST cfg body dc ec = .ok doc)
    (hcf : (requestChecklistBase body).critical_fails ≠ []) :
    doc.checklist_actions.decision_hint = "STOP" ∧ doc.stop_work.decision = "STOP" := by
  obtain ⟨cb, ats0, en, hg, _, hdoc⟩ := atsPOST_ok_inv cfg body dc ec doc h
  have hcb : cb.critical_fails = (requestChecklistBase body).critical_fails :=
    incidentsGuard_ok_critical_fails _ _ _ _ hg
  have hcf2 : cb.critical_fails ≠ [] := by
    rw [hcb]
    exact hcf
  subst hdoc
  constructor
  · rw [reconcile_checklist_eq]
    exact finalChecklist_hint_stop _ _ hcf2
  · rw [reconcile_decision_eq]
    exact reconcileHintRewrite_stop _ _ _ (finalChecklist_hint_stop _ _ hcf2)

/-- A checklist state where one supervisor item is answered NO. -/
def c2Estrella : EstrellaFormat :=
  { cexEstrella with supStagesClarity := some "NO" }

def c2Body : RequestBody := { estrella_format := c2Estrella }

/-- Witness for the amended C2 at a concrete negative-supervisor request. -/
theorem c2_seed_critical_fails_force_stop_witness :
    ∃ doc, atsPOST { apiKeySet := false } c2Body (ServiceCall.returns (some cexDraft))
        (ServiceCall.returns none) = Except.ok doc ∧
      doc.checklist_actions.decision_hint = "STOP" ∧
      doc.stop_work.decision = "STOP" := by
  obtain ⟨doc, hdoc⟩ := atsPOST_returns_ok { apiKeySet := false } c2Body (some cexDraft)
    (ServiceCall.returns none) (by decide) (by decide)
  exact ⟨doc, hdoc, c2_seed_critical_fails_force_stop _ _ _ _ _ hdoc (by decide)⟩

/-! ## Claim C4: the unparseable-draft substitute -/

/-- Claim C4: when the drafting service's output is not parseable, the
request still succeeds (given that it passed the lesson-learned precondition
and the enrichment call does not throw); the final document's
`stop_work.criteria` equals the fixed seed, its `auto_triggers` extends the
deterministic trigger seed verbatim (the seed is a prefix), and its decision
is one of the three valid values — the substitute is then completed from the
seeds alone into a schema-complete document (a total `ATSDocument`). -/
theorem c4_unparseable_draft_fallback (cfg : Config) (body : RequestBody)
    (ec : ServiceCall RawChecklistPayload)
    (hguard : ¬(requestIncidentsFlagged body = true ∧
      cfg.requireLessonLearnedOnIncidents = true))
    (hec : ec ≠ ServiceCall.throws) :
    ∃ doc, atsPOST cfg body (ServiceCall.returns none) ec = Except.ok doc ∧
      doc.stop_work.criteria = generalCriteria ∧
      (∃ t2, doc.stop_work.auto_triggers = requestAutoTriggers body ++ t2) ∧
      doc.stop_work.decision ∈ (["STOP", "CONTINUE", "REVIEW_REQUIRED"] : List String) := by
  obtain ⟨cb, hg⟩ := incidentsGuard_ok_of cfg.requireLessonLearnedOnIncidents
    (requestIncidentsFlagged body) (requestChecklistBase body) hguard
  obtain ⟨en, hen⟩ := enrich_ok_of_ne_throws cfg.apiKeySet cb ec hec
  refine ⟨reconcile (requestMeta body) (requestEnvironment body) (requestAutoTriggers body)
    generalCriteria (requestProcedureInfluence body) (requestNormativeRefs body) cb
    (requestTasks body)
    (substituteDraft (requestMeta body) (requestEnvironment body) (requestAutoTriggers body)
      generalCriteria (requestNormativeRefs body) cb) en, ?_, ?_, ?_, ?_⟩
  · unfold atsPOST
    rw [hg]
    dsimp only
    rw [hen]
  · exact reconcile_criteria_eq _ _ _ _ _ _ _ _ _ _
  · rw [reconcile_auto_triggers_eq]
    unfold finalAutoTriggers
    split
    · obtain ⟨hcl, hnd⟩ := mergeUnique_clean
        (computeStopWorkTriggers (requestEnvironment body) (requestTasks body))
        ((match requestLesson body with
          | some p => safeArrayStrings p.brief.stop_work
          | none => []).map (fun x => "Lección aprendida: " ++ x))
      exact mergeUnique_front _ _ hnd hcl
    · exact ⟨[], (List.append_nil _).symm⟩
  · rw [reconcile_decision_eq]
    apply reconcileHintRewrite_valid
    apply reconcileTriggerRewrite_valid
    rw [draftDecision_substitute]
    exact substituteDecision_valid _

/-- Witness for C4 at the empty request. -/
theorem c4_unparseable_draft_fallback_witness :
    ∃ doc, atsPOST { apiKeySet := false } {} (ServiceCall.returns none)
        (ServiceCall.returns none) = Except.ok doc ∧
      doc.stop_work.criteria = generalCriteria ∧
      (∃ t2, doc.stop_work.auto_triggers = requestAutoTriggers {} ++ t2) ∧
      doc.stop_work.decision ∈ (["STOP", "CONTINUE", "REVIEW_REQUIRED"] : List String) :=
  c4_unparseable_draft_fallback _ _ _ (by decide) (by decide)

/-! ## Claim C5: the completeness floors -/

/-- A parsed draft with an empty hazards array and four steps. -/
def c5Draft : RawATS :=
  { hazards := some [],
    steps := some [{ step := some "s1" }, { step := some "s2" },
                   { step := some "s3" }, { step := some "s4" }] }

/-- Counterexample to claim C5 as stated: on a minimal request whose fallback
synthesizer produces a single hazard, the final document holds 1 hazard —
below the fixed minimum of 3. -/
theorem c5_hazard_floor_counterexample :
    (atsPOST { apiKeySet := false } {} (ServiceCall.returns (some c5Draft))
        (ServiceCall.returns none)).toOption.map (fun d => d.hazards) =
      some ["Riesgos generales de operación: interacción hombre-máquina, energías peligrosas, orden y aseo, y condiciones del entorno."] ∧
    (1 : Nat) < 3 := by
  constructor
  · decide
  · decide

/-- Claim C5 (amended): every successful run yields at least one hazard and
at least 4 steps; the hazard fallback is merged into — never replaces — the
draft's hazards, but the guaranteed floor is 1 hazard, not 3 (see
`c5_hazard_floor_counterexample`), and a draft with 1-3 steps has its steps
replaced by the 5-step fallback skeleton rather than merged. -/
theorem c5_completeness_floors (cfg : Config) (body : RequestBody)
    (dc : ServiceCall RawATS) (ec : ServiceCall RawChecklistPayload) (doc : ATSDocument)
    (h : atsPOST cfg body dc ec = .ok doc) :
    doc.hazards ≠ [] ∧ 4 ≤ doc.steps.length := by
  obtain ⟨cb, ats0, en, _, _, hdoc⟩ := atsPOST_ok_inv cfg body dc ec doc h
  subst hdoc
  exact ⟨reconcile_hazards_ne_nil _ _ _ _ _ _ _ _ _ _,
         reconcile_steps_len _ _ _ _ _ _ _ _ _ _⟩

/-- Witness for the amended C5. -/
theorem c5_completeness_floors_witness :
    ∃ doc, atsPOST { apiKeySet := false } {} (ServiceCall.returns (some c5Draft))
        (ServiceCall.returns none) = Except.ok doc ∧
      doc.hazards ≠ [] ∧ 4 ≤ doc.steps.length := by
  obtain ⟨doc, hdoc⟩ := atsPOST_returns_ok { apiKeySet := false } {} (some c5Draft)
    (ServiceCall.returns none) (by decide) (by decide)
  exact ⟨doc, hdoc, c5_completeness_floors _ _ _ _ _ hdoc⟩

/-! ## Claim C8: the lesson-learned precondition -/

/-- Claim C8: a request answering "incidents in similar work" affirmatively
without a usable lesson-learned brief is rejected with the 400
`lessonRequiredError` in the strict mode; in the flexible mode it is never
rejected with that error, and instead the checklist seed gains the missing
entry and the high-priority action, and a CONTINUE hint is escalated to
REVIEW_REQUIRED. -/
theorem c8_lesson_learned_guard (cfg : Config) (body : RequestBody)
    (dc : ServiceCall RawATS) (ec : ServiceCall RawChecklistPayload)
    (hflag : requestIncidentsFlagged body = true) :
    (cfg.requireLessonLearnedOnIncidents = true →
      atsPOST cfg body dc ec = .error lessonRequiredError ∧
      lessonRequiredError.status = 400) ∧
    (cfg.requireLessonLearnedOnIncidents = false →
      atsPOST cfg body dc ec ≠ .error lessonRequiredError ∧
      incidentsGuard false true (requestChecklistBase body) =
        .ok (flexibleLessonAdjust (requestChecklistBase body)) ∧
      "Incidentes en trabajos similares = Sí, pero no se adjuntó lección aprendida (lesson_learned_brief)."
        ∈ (flexibleLessonAdjust (requestChecklistBase body)).missing ∧
      (flexibleLessonAdjust (requestChecklistBase body)).actions =
        (requestChecklistBase body).actions ++ [flexibleLessonAction] ∧
      (flexibleLessonAdjust (requestChecklistBase body)).decision_hint =
        (if (requestChecklistBase body).decision_hint = "CONTINUE" then "REVIEW_REQUIRED"
         else (requestChecklistBase body).decision_hint)) := by
  constructor
  · intro hr
    refine ⟨?_, rfl⟩
    unfold atsPOST
    rw [hflag, hr]
    rfl
  · intro hr
    refine ⟨?_, rfl, ?_, rfl, rfl⟩
    · intro hcon
      unfold atsPOST at hcon
      rw [hflag, hr] at hcon
      have hg : incidentsGuard false true (requestChecklistBase body) =
          .ok (flexibleLessonAdjust (requestChecklistBase body)) := rfl
      rw [hg] at hcon
      dsimp only at hcon
      rcases dc with _ | parsed
      · dsimp only at hcon
        have : errorGeneratingATS = lessonRequiredError := Except.error.inj hcon
        exact absurd this (by decide)
      · dsimp only at hcon
        rcases h2 : enrichChecklistWithAI cfg.apiKeySet
            (flexibleLessonAdjust (requestChecklistBase body)) ec with u | en
        · rw [h2] at hcon
          dsimp only at hcon
          have : errorGeneratingATS = lessonRequiredError := Except.error.inj hcon
          exact absurd this (by decide)
        · rw [h2] at hcon
          dsimp only at hcon
          cases hcon
    · apply mergeUnique_mem
      · exact ⟨by decide, by decide⟩
      · simp

/-- A request with incidents = Sí and no lesson-learned brief. -/
def c8Body : RequestBody :=
  { estrella_format := { incidentsReference := "Si" } }

/-- Witness for C8: the strict mode rejects the flagged request with the 400;
the flexible mode escalates the hint instead. -/
theorem c8_lesson_learned_guard_witness :
    atsPOST { requireLessonLearnedOnIncidents := true } c8Body (ServiceCall.returns none)
      (ServiceCall.returns none) = .error lessonRequiredError ∧
    atsPOST { requireLessonLearnedOnIncidents := false } c8Body (ServiceCall.returns none)
      (ServiceCall.returns none) ≠ .error lessonRequiredError :=
  ⟨((c8_lesson_learned_guard { requireLessonLearnedOnIncidents := true } c8Body
      (ServiceCall.returns none) (ServiceCall.returns none) (by decide)).1 rfl).1,
   ((c8_lesson_learned_guard { requireLessonLearnedOnIncidents := false } c8Body
      (ServiceCall.returns none) (ServiceCall.returns none) (by decide)).2 rfl).1⟩

/-! ## Claim C9: checklist-enrichment failure handling -/

/-- A run where the enrichment call throws (service unreachable / timeout):
the whole request fails with the 500, refuting the claim that every
enrichment failure is absorbed silently. -/
theorem c9_enrichment_throw_counterexample :
    errOf (atsPOST {} {} (ServiceCall.returns (some {})) ServiceCall.throws) =
      some errorGeneratingATS ∧ errorGeneratingATS.status = 500 := by
  constructor
  · decide
  · rfl

/-- Claim C9 (amended): an enrichment response that is not valid JSON is
absorbed silently and the deterministic seed is used unchanged — likewise
when no API key is configured or the seed carries no signal — but a thrown
enrichment call (service unreachable or timeout) is not absorbed: it escapes
`enrichChecklistWithAI` and the request fails with the 500 (see
`c9_enrichment_throw_counterexample`). -/
theorem c9_enrichment_fallback (k : Bool) (base : ChecklistActionsPayload) :
    (enrichChecklistWithAI k base (ServiceCall.returns none) = .ok base) ∧
    (k = false → ∀ c, enrichChecklistWithAI k base c = .ok base) ∧
    (hasSignal base = false → ∀ c, enrichChecklistWithAI k base c = .ok base) ∧
    (k = true → hasSignal base = true →
      enrichChecklistWithAI k base ServiceCall.throws = .error ()) := by
  refine ⟨?_, ?_, ?_, ?_⟩
  · unfold enrichChecklistWithAI
    split
    · rfl
    · split
      · rfl
      · rfl
  · intro hk c
    unfold enrichChecklistWithAI
    rw [if_pos hk]
  · intro hs c
    unfold enrichChecklistWithAI
    split <;> simp [hs]
  · intro hk hs
    unfold enrichChecklistWithAI
    rw [if_neg (by simp [hk]), if_neg (by simp [hs])]

/-- Witness for the amended C9 on the empty request's checklist seed (which
has missing entries, hence signal). -/
theorem c9_enrichment_fallback_witness :
    enrichChecklistWithAI true (requestChecklistBase {}) (ServiceCall.returns none) =
      .ok (requestChecklistBase {}) ∧
    enrichChecklistWithAI true (requestChecklistBase {}) ServiceCall.throws = .error () :=
  ⟨(c9_enrichment_fallback true (requestChecklistBase {})).1,
   (c9_enrichment_fallback true (requestChecklistBase {})).2.2.2 rfl (by decide)⟩

end ATSRoute
